import Mathlib

/-!
Verification of a Schnorr signature implementation over the BabyJubJub
twisted Edwards curve (circomlib-compatible parameterization), shallowly
embedded from the Rust sources in crates/schnorr-core.

The base field is F_p with p the BN254 scalar-field prime; the subgroup
order is n.  Curve points are affine pairs over F_p; scalars live in Z_n.
External hash primitives (Poseidon, SHA-256, SHA-512) are modelled as
function parameters, since only their determinism and output shape matter
for the properties proved here.
-/

set_option maxRecDepth 4000000
set_option maxHeartbeats 1600000

/-! ## Natural-number utilities: binary modular exponentiation, bit and
byte decompositions (little-endian), as used by the embedded code. -/

/-- Fuelled binary modular exponentiation: computes a ^ e % m when
e < 2 ^ fuel.  Structural recursion keeps it kernel-reducible. -/
def powModAux : ℕ → ℕ → ℕ → ℕ → ℕ
  | 0, _, _, m => 1 % m
  | fuel+1, a, e, m =>
    if e = 0 then 1 % m
    else
      let r := powModAux fuel (a * a % m) (e / 2) m
      if e % 2 = 1 then r * a % m else r

/-- Modular exponentiation for exponents below 2 ^ 300. -/
def powMod (a e m : ℕ) : ℕ := powModAux 300 a e m

theorem powModAux_eq : ∀ (fuel a e m : ℕ), e < 2 ^ fuel →
    powModAux fuel a e m = a ^ e % m := by
  intro fuel
  induction fuel with
  | zero =>
    intro a e m h
    have he : e = 0 := by simpa using Nat.lt_one_iff.mp (by simpa using h)
    subst he
    simp [powModAux]
  | succ fuel ih =>
    intro a e m h
    by_cases he : e = 0
    · subst he; simp [powModAux]
    · have hlt : e / 2 < 2 ^ fuel := by
        have h2 : (2:ℕ) ^ (fuel+1) = 2 * 2 ^ fuel := by rw [pow_succ]; ring
        omega
      have ihr := ih (a * a % m) (e / 2) m hlt
      have hpow : (a * a % m) ^ (e / 2) % m = a ^ (2 * (e / 2)) % m := by
        rw [← Nat.pow_mod, ← pow_two, ← pow_mul]
      by_cases hodd : e % 2 = 1
      · have hsplit : e = 2 * (e / 2) + 1 := by omega
        simp only [powModAux, he, if_false, hodd, if_true]
        rw [ihr, hpow, Nat.mul_mod, Nat.mod_mod_of_dvd, ← Nat.mul_mod]
        · rw [← pow_succ, ← hsplit]
        · exact dvd_refl m
      · have hsplit : e = 2 * (e / 2) := by omega
        simp only [powModAux, he, if_false, hodd, if_false]
        rw [ihr, hpow, ← hsplit]

theorem powMod_eq (a e m : ℕ) (h : e < 2 ^ 300) : powMod a e m = a ^ e % m :=
  powModAux_eq 300 a e m h

/-- Little-endian bit decomposition of a natural number, fixed length. -/
def natBitsLE : ℕ → ℕ → List Bool
  | 0, _ => []
  | len+1, v => (v % 2 == 1) :: natBitsLE len (v / 2)

/-- Value represented by a little-endian bit list. -/
def bitsVal : List Bool → ℕ
  | [] => 0
  | b :: bs => (if b then 1 else 0) + 2 * bitsVal bs

theorem natBitsLE_length : ∀ (len v : ℕ), (natBitsLE len v).length = len
  | 0, _ => rfl
  | len+1, v => by simp [natBitsLE, natBitsLE_length len]

theorem bitsVal_natBitsLE : ∀ (len v : ℕ), v < 2 ^ len →
    bitsVal (natBitsLE len v) = v := by
  intro len
  induction len with
  | zero => intro v h; interval_cases v; rfl
  | succ len ih =>
    intro v h
    have hlt : v / 2 < 2 ^ len := by
      have h2 : (2:ℕ) ^ (len+1) = 2 * 2 ^ len := by rw [pow_succ]; ring
      omega
    by_cases hv : v % 2 = 1 <;>
      simp [natBitsLE, bitsVal, hv, ih (v / 2) hlt] <;> omega

theorem natBitsLE_add : ∀ (k l v : ℕ),
    natBitsLE (k + l) v = natBitsLE k v ++ natBitsLE l (v / 2 ^ k) := by
  intro k
  induction k with
  | zero => intro l v; simp [natBitsLE]
  | succ k ih =>
    intro l v
    have hs : k + 1 + l = (k + l) + 1 := by omega
    rw [hs]
    simp only [natBitsLE, List.cons_append]
    rw [ih l (v / 2)]
    have : v / 2 / 2 ^ k = v / 2 ^ (k + 1) := by
      rw [Nat.div_div_eq_div_mul, pow_succ, mul_comm (2 ^ k) 2]
    rw [this]

theorem natBitsLE_take : ∀ (k m v : ℕ), k ≤ m →
    (natBitsLE m v).take k = natBitsLE k v := by
  intro k
  induction k with
  | zero => intro m v _; simp [natBitsLE]
  | succ k ih =>
    intro m v h
    match m, h with
    | m+1, h =>
      simp only [natBitsLE, List.take_succ_cons]
      rw [ih m (v / 2) (by omega)]

/-- Little-endian byte decomposition, fixed length. -/
def toBytesLE : ℕ → ℕ → List ℕ
  | 0, _ => []
  | c+1, v => (v % 256) :: toBytesLE c (v / 256)

/-- Expand a little-endian byte list to bits, 8 bits per byte, LSB first. -/
def bytesToBitsLE (bytes : List ℕ) : List Bool :=
  bytes.foldr (fun b acc => natBitsLE 8 b ++ acc) []

/-- Interpret a little-endian byte list as a natural number. -/
def fromLeBytesNat (bytes : List ℕ) : ℕ :=
  bytes.foldr (fun b acc => b + 256 * acc) 0

theorem natBitsLE_mod : ∀ (len v : ℕ),
    natBitsLE len (v % 2 ^ len) = natBitsLE len v := by
  intro len
  induction len with
  | zero => intro v; rfl
  | succ len ih =>
    intro v
    simp only [natBitsLE]
    have h1 : v % 2 ^ (len+1) % 2 = v % 2 :=
      Nat.mod_mod_of_dvd v (dvd_pow_self 2 (Nat.succ_ne_zero len))
    have h2 : v % 2 ^ (len+1) / 2 = v / 2 % 2 ^ len := by
      rw [pow_succ, mul_comm, Nat.mod_mul_right_div_self]
    rw [h1, h2, ih]

theorem bytesToBitsLE_cons (b : ℕ) (bytes : List ℕ) :
    bytesToBitsLE (b :: bytes) = natBitsLE 8 b ++ bytesToBitsLE bytes := rfl

theorem bytesToBitsLE_toBytesLE : ∀ (c v : ℕ),
    bytesToBitsLE (toBytesLE c v) = natBitsLE (8 * c) v := by
  intro c
  induction c with
  | zero => intro v; simp [toBytesLE, bytesToBitsLE, natBitsLE]
  | succ c ih =>
    intro v
    have h8 : 8 * (c + 1) = 8 + 8 * c := by omega
    rw [h8, natBitsLE_add 8 (8 * c) v]
    simp only [toBytesLE, bytesToBitsLE_cons]
    have hbits : natBitsLE 8 (v % 256) = natBitsLE 8 v := by
      have h256 : (256 : ℕ) = 2 ^ 8 := by norm_num
      rw [h256, natBitsLE_mod 8 v]
    have hdiv : v / 256 = v / 2 ^ 8 := by norm_num
    rw [hbits, ih (v / 256), hdiv]

theorem fromLeBytesNat_toBytesLE : ∀ (c v : ℕ), v < 256 ^ c →
    fromLeBytesNat (toBytesLE c v) = v := by
  intro c
  induction c with
  | zero => intro v h; interval_cases v; rfl
  | succ c ih =>
    intro v h
    have hlt : v / 256 < 256 ^ c := by
      have : (256:ℕ) ^ (c+1) = 256 * 256 ^ c := by rw [pow_succ]; ring
      omega
    simp [toBytesLE, fromLeBytesNat] at ih ⊢
    rw [ih (v / 256) hlt]
    omega

/-! ## Bridging lemmas between powMod and ZMod, and primality certificates
(Lucas-style) for the BN254 scalar-field prime. -/

theorem zmod_pow_natCast (m a e : ℕ) (he : e < 2 ^ 300) :
    ((a : ℕ) : ZMod m) ^ e = ((powMod a e m : ℕ) : ZMod m) := by
  rw [powMod_eq a e m he, ZMod.natCast_mod, Nat.cast_pow]

theorem zmod_natCast_ne (m v w : ℕ) (hv : v < m) (hw : w < m) (hne : v ≠ w) :
    ((v : ℕ) : ZMod m) ≠ ((w : ℕ) : ZMod m) := by
  intro h
  apply hne
  have h2 := congrArg ZMod.val h
  rwa [ZMod.val_natCast_of_lt hv, ZMod.val_natCast_of_lt hw] at h2

theorem prime_2 : Nat.Prime 2 := by norm_num
theorem prime_3 : Nat.Prime 3 := by norm_num
theorem prime_5 : Nat.Prime 5 := by norm_num
theorem prime_7 : Nat.Prime 7 := by norm_num
theorem prime_11 : Nat.Prime 11 := by norm_num
theorem prime_13 : Nat.Prime 13 := by norm_num
theorem prime_19 : Nat.Prime 19 := by norm_num
theorem prime_29 : Nat.Prime 29 := by norm_num
theorem prime_83 : Nat.Prime 83 := by norm_num
theorem prime_107 : Nat.Prime 107 := by norm_num
theorem prime_229 : Nat.Prime 229 := by norm_num
theorem prime_379 : Nat.Prime 379 := by norm_num
theorem prime_449 : Nat.Prime 449 := by norm_num
theorem prime_661 : Nat.Prime 661 := by norm_num
theorem prime_823 : Nat.Prime 823 := by norm_num
theorem prime_853 : Nat.Prime 853 := by norm_num
theorem prime_983 : Nat.Prime 983 := by norm_num
theorem prime_1637 : Nat.Prime 1637 := by norm_num
theorem prime_3691 : Nat.Prime 3691 := by norm_num
theorem prime_4999 : Nat.Prime 4999 := by norm_num
theorem prime_11003 : Nat.Prime 11003 := by norm_num
theorem prime_41927 : Nat.Prime 41927 := by norm_num
theorem prime_93001 : Nat.Prime 93001 := by norm_num

theorem prime_237073 : Nat.Prime 237073 := by
  have hfac : 237073 - 1 = 2 ^ 4 * 3 * 11 * 449 := by norm_num
  refine lucas_primality 237073 ((15 : ℕ) : ZMod 237073) ?_ ?_
  · have h : powMod 15 (237073 - 1) 237073 = 1 := by decide
    rw [zmod_pow_natCast 237073 15 (237073 - 1) (by norm_num), h, Nat.cast_one]
  · intro q hq hdvd
    rw [hfac] at hdvd
    rcases (Nat.Prime.dvd_mul hq).mp hdvd with hL3 | hT3
    · rcases (Nat.Prime.dvd_mul hq).mp hL3 with hL2 | hT2
      · rcases (Nat.Prime.dvd_mul hq).mp hL2 with hL1 | hT1
        · have hdp0 := Nat.Prime.dvd_of_dvd_pow hq hL1
          have hqe0 : q = 2 := (Nat.prime_dvd_prime_iff_eq hq prime_2).mp hdp0
          subst hqe0
          have he : (237073 - 1) / 2 = 118536 := by norm_num
          rw [he, zmod_pow_natCast 237073 15 118536 (by norm_num)]
          have hv : powMod 15 118536 237073 = 237072 := by decide
          rw [hv, ← Nat.cast_one]
          exact zmod_natCast_ne 237073 237072 1 (by norm_num) (by norm_num) (by norm_num)
        · have hqe1 : q = 3 := (Nat.prime_dvd_prime_iff_eq hq prime_3).mp hT1
          subst hqe1
          have he : (237073 - 1) / 3 = 79024 := by norm_num
          rw [he, zmod_pow_natCast 237073 15 79024 (by norm_num)]
          have hv : powMod 15 79024 237073 = 63336 := by decide
          rw [hv, ← Nat.cast_one]
          exact zmod_natCast_ne 237073 63336 1 (by norm_num) (by norm_num) (by norm_num)
      · have hqe2 : q = 11 := (Nat.prime_dvd_prime_iff_eq hq prime_11).mp hT2
        subst hqe2
        have he : (237073 - 1) / 11 = 21552 := by norm_num
        rw [he, zmod_pow_natCast 237073 15 21552 (by norm_num)]
        have hv : powMod 15 21552 237073 = 224235 := by decide
        rw [hv, ← Nat.cast_one]
        exact zmod_natCast_ne 237073 224235 1 (by norm_num) (by norm_num) (by norm_num)
    · have hqe3 : q = 449 := (Nat.prime_dvd_prime_iff_eq hq prime_449).mp hT3
      subst hqe3
      have he : (237073 - 1) / 449 = 528 := by norm_num
      rw [he, zmod_pow_natCast 237073 15 528 (by norm_num)]
      have hv : powMod 15 528 237073 = 197030 := by decide
      rw [hv, ← Nat.cast_one]
      exact zmod_natCast_ne 237073 197030 1 (by norm_num) (by norm_num) (by norm_num)

theorem prime_1593227 : Nat.Prime 1593227 := by
  have hfac : 1593227 - 1 = 2 * 19 * 41927 := by norm_num
  refine lucas_primality 1593227 ((2 : ℕ) : ZMod 1593227) ?_ ?_
  · have h : powMod 2 (1593227 - 1) 1593227 = 1 := by decide
    rw [zmod_pow_natCast 1593227 2 (1593227 - 1) (by norm_num), h, Nat.cast_one]
  · intro q hq hdvd
    rw [hfac] at hdvd
    rcases (Nat.Prime.dvd_mul hq).mp hdvd with hL2 | hT2
    · rcases (Nat.Prime.dvd_mul hq).mp hL2 with hL1 | hT1
      · have hqe0 : q = 2 := (Nat.prime_dvd_prime_iff_eq hq prime_2).mp hL1
        subst hqe0
        have he : (1593227 - 1) / 2 = 796613 := by norm_num
        rw [he, zmod_pow_natCast 1593227 2 796613 (by norm_num)]
        have hv : powMod 2 796613 1593227 = 1593226 := by decide
        rw [hv, ← Nat.cast_one]
        exact zmod_natCast_ne 1593227 1593226 1 (by norm_num) (by norm_num) (by norm_num)
      · have hqe1 : q = 19 := (Nat.prime_dvd_prime_iff_eq hq prime_19).mp hT1
        subst hqe1
        have he : (1593227 - 1) / 19 = 83854 := by norm_num
        rw [he, zmod_pow_natCast 1593227 2 83854 (by norm_num)]
        have hv : powMod 2 83854 1593227 = 836782 := by decide
        rw [hv, ← Nat.cast_one]
        exact zmod_natCast_ne 1593227 836782 1 (by norm_num) (by norm_num) (by norm_num)
    · have hqe2 : q = 41927 := (Nat.prime_dvd_prime_iff_eq hq prime_41927).mp hT2
      subst hqe2
      have he : (1593227 - 1) / 41927 = 38 := by norm_num
      rw [he, zmod_pow_natCast 1593227 2 38 (by norm_num)]
      have hv : powMod 2 38 1593227 = 45861 := by decide
      rw [hv, ← Nat.cast_one]
      exact zmod_natCast_ne 1593227 45861 1 (by norm_num) (by norm_num) (by norm_num)

theorem prime_405928799 : Nat.Prime 405928799 := by
  have hfac : 405928799 - 1 = 2 * 11 * 3691 * 4999 := by norm_num
  refine lucas_primality 405928799 ((22 : ℕ) : ZMod 405928799) ?_ ?_
  · have h : powMod 22 (405928799 - 1) 405928799 = 1 := by decide
    rw [zmod_pow_natCast 405928799 22 (405928799 - 1) (by norm_num), h, Nat.cast_one]
  · intro q hq hdvd
    rw [hfac] at hdvd
    rcases (Nat.Prime.dvd_mul hq).mp hdvd with hL3 | hT3
    · rcases (Nat.Prime.dvd_mul hq).mp hL3 with hL2 | hT2
      · rcases (Nat.Prime.dvd_mul hq).mp hL2 with hL1 | hT1
        · have hqe0 : q = 2 := (Nat.prime_dvd_prime_iff_eq hq prime_2).mp hL1
          subst hqe0
          have he : (405928799 - 1) / 2 = 202964399 := by norm_num
          rw [he, zmod_pow_natCast 405928799 22 202964399 (by norm_num)]
          have hv : powMod 22 202964399 405928799 = 405928798 := by decide
          rw [hv, ← Nat.cast_one]
          exact zmod_natCast_ne 405928799 405928798 1 (by norm_num) (by norm_num) (by norm_num)
        · have hqe1 : q = 11 := (Nat.prime_dvd_prime_iff_eq hq prime_11).mp hT1
          subst hqe1
          have he : (405928799 - 1) / 11 = 36902618 := by norm_num
          rw [he, zmod_pow_natCast 405928799 22 36902618 (by norm_num)]
          have hv : powMod 22 36902618 405928799 = 215859951 := by decide
          rw [hv, ← Nat.cast_one]
          exact zmod_natCast_ne 405928799 215859951 1 (by norm_num) (by norm_num) (by norm_num)
      · have hqe2 : q = 3691 := (Nat.prime_dvd_prime_iff_eq hq prime_3691).mp hT2
        subst hqe2
        have he : (405928799 - 1) / 3691 = 109978 := by norm_num
        rw [he, zmod_pow_natCast 405928799 22 109978 (by norm_num)]
        have hv : powMod 22 109978 405928799 = 147917081 := by decide
        rw [hv, ← Nat.cast_one]
        exact zmod_natCast_ne 405928799 147917081 1 (by norm_num) (by norm_num) (by norm_num)
    · have hqe3 : q = 4999 := (Nat.prime_dvd_prime_iff_eq hq prime_4999).mp hT3
      subst hqe3
      have he : (405928799 - 1) / 4999 = 81202 := by norm_num
      rw [he, zmod_pow_natCast 405928799 22 81202 (by norm_num)]
      have hv : powMod 22 81202 405928799 = 61847818 := by decide
      rw [hv, ← Nat.cast_one]
      exact zmod_natCast_ne 405928799 61847818 1 (by norm_num) (by norm_num) (by norm_num)

theorem prime_639533339 : Nat.Prime 639533339 := by
  have hfac : 639533339 - 1 = 2 * 229 * 853 * 1637 := by norm_num
  refine lucas_primality 639533339 ((2 : ℕ) : ZMod 639533339) ?_ ?_
  · have h : powMod 2 (639533339 - 1) 639533339 = 1 := by decide
    rw [zmod_pow_natCast 639533339 2 (639533339 - 1) (by norm_num), h, Nat.cast_one]
  · intro q hq hdvd
    rw [hfac] at hdvd
    rcases (Nat.Prime.dvd_mul hq).mp hdvd with hL3 | hT3
    · rcases (Nat.Prime.dvd_mul hq).mp hL3 with hL2 | hT2
      · rcases (Nat.Prime.dvd_mul hq).mp hL2 with hL1 | hT1
        · have hqe0 : q = 2 := (Nat.prime_dvd_prime_iff_eq hq prime_2).mp hL1
          subst hqe0
          have he : (639533339 - 1) / 2 = 319766669 := by norm_num
          rw [he, zmod_pow_natCast 639533339 2 319766669 (by norm_num)]
          have hv : powMod 2 319766669 639533339 = 639533338 := by decide
          rw [hv, ← Nat.cast_one]
          exact zmod_natCast_ne 639533339 639533338 1 (by norm_num) (by norm_num) (by norm_num)
        · have hqe1 : q = 229 := (Nat.prime_dvd_prime_iff_eq hq prime_229).mp hT1
          subst hqe1
          have he : (639533339 - 1) / 229 = 2792722 := by norm_num
          rw [he, zmod_pow_natCast 639533339 2 2792722 (by norm_num)]
          have hv : powMod 2 2792722 639533339 = 271298491 := by decide
          rw [hv, ← Nat.cast_one]
          exact zmod_natCast_ne 639533339 271298491 1 (by norm_num) (by norm_num) (by norm_num)
      · have hqe2 : q = 853 := (Nat.prime_dvd_prime_iff_eq hq prime_853).mp hT2
        subst hqe2
        have he : (639533339 - 1) / 853 = 749746 := by norm_num
        rw [he, zmod_pow_natCast 639533339 2 749746 (by norm_num)]
        have hv : powMod 2 749746 639533339 = 256057581 := by decide
        rw [hv, ← Nat.cast_one]
        exact zmod_natCast_ne 639533339 256057581 1 (by norm_num) (by norm_num) (by norm_num)
    · have hqe3 : q = 1637 := (Nat.prime_dvd_prime_iff_eq hq prime_1637).mp hT3
      subst hqe3
      have he : (639533339 - 1) / 1637 = 390674 := by norm_num
      rw [he, zmod_pow_natCast 639533339 2 390674 (by norm_num)]
      have hv : powMod 2 390674 639533339 = 248876995 := by decide
      rw [hv, ← Nat.cast_one]
      exact zmod_natCast_ne 639533339 248876995 1 (by norm_num) (by norm_num) (by norm_num)

theorem prime_12048837557 : Nat.Prime 12048837557 := by
  have hfac : 12048837557 - 1 = 2 ^ 2 * 7 ^ 2 * 661 * 93001 := by norm_num
  refine lucas_primality 12048837557 ((2 : ℕ) : ZMod 12048837557) ?_ ?_
  · have h : powMod 2 (12048837557 - 1) 12048837557 = 1 := by decide
    rw [zmod_pow_natCast 12048837557 2 (12048837557 - 1) (by norm_num), h, Nat.cast_one]
  · intro q hq hdvd
    rw [hfac] at hdvd
    rcases (Nat.Prime.dvd_mul hq).mp hdvd with hL3 | hT3
    · rcases (Nat.Prime.dvd_mul hq).mp hL3 with hL2 | hT2
      · rcases (Nat.Prime.dvd_mul hq).mp hL2 with hL1 | hT1
        · have hdp0 := Nat.Prime.dvd_of_dvd_pow hq hL1
          have hqe0 : q = 2 := (Nat.prime_dvd_prime_iff_eq hq prime_2).mp hdp0
          subst hqe0
          have he : (12048837557 - 1) / 2 = 6024418778 := by norm_num
          rw [he, zmod_pow_natCast 12048837557 2 6024418778 (by norm_num)]
          have hv : powMod 2 6024418778 12048837557 = 12048837556 := by decide
          rw [hv, ← Nat.cast_one]
          exact zmod_natCast_ne 12048837557 12048837556 1 (by norm_num) (by norm_num) (by norm_num)
        · have hdp1 := Nat.Prime.dvd_of_dvd_pow hq hT1
          have hqe1 : q = 7 := (Nat.prime_dvd_prime_iff_eq hq prime_7).mp hdp1
          subst hqe1
          have he : (12048837557 - 1) / 7 = 1721262508 := by norm_num
          rw [he, zmod_pow_natCast 12048837557 2 1721262508 (by norm_num)]
          have hv : powMod 2 1721262508 12048837557 = 41029474 := by decide
          rw [hv, ← Nat.cast_one]
          exact zmod_natCast_ne 12048837557 41029474 1 (by norm_num) (by norm_num) (by norm_num)
      · have hqe2 : q = 661 := (Nat.prime_dvd_prime_iff_eq hq prime_661).mp hT2
        subst hqe2
        have he : (12048837557 - 1) / 661 = 18228196 := by norm_num
        rw [he, zmod_pow_natCast 12048837557 2 18228196 (by norm_num)]
        have hv : powMod 2 18228196 12048837557 = 8877273464 := by decide
        rw [hv, ← Nat.cast_one]
        exact zmod_natCast_ne 12048837557 8877273464 1 (by norm_num) (by norm_num) (by norm_num)
    · have hqe3 : q = 93001 := (Nat.prime_dvd_prime_iff_eq hq prime_93001).mp hT3
      subst hqe3
      have he : (12048837557 - 1) / 93001 = 129556 := by norm_num
      rw [he, zmod_pow_natCast 12048837557 2 129556 (by norm_num)]
      have hv : powMod 2 129556 12048837557 = 4746995210 := by decide
      rw [hv, ← Nat.cast_one]
      exact zmod_natCast_ne 12048837557 4746995210 1 (by norm_num) (by norm_num) (by norm_num)

theorem prime_5156902474397 : Nat.Prime 5156902474397 := by
  have hfac : 5156902474397 - 1 = 2 ^ 2 * 107 * 12048837557 := by norm_num
  refine lucas_primality 5156902474397 ((2 : ℕ) : ZMod 5156902474397) ?_ ?_
  · have h : powMod 2 (5156902474397 - 1) 5156902474397 = 1 := by decide
    rw [zmod_pow_natCast 5156902474397 2 (5156902474397 - 1) (by norm_num), h, Nat.cast_one]
  · intro q hq hdvd
    rw [hfac] at hdvd
    rcases (Nat.Prime.dvd_mul hq).mp hdvd with hL2 | hT2
    · rcases (Nat.Prime.dvd_mul hq).mp hL2 with hL1 | hT1
      · have hdp0 := Nat.Prime.dvd_of_dvd_pow hq hL1
        have hqe0 : q = 2 := (Nat.prime_dvd_prime_iff_eq hq prime_2).mp hdp0
        subst hqe0
        have he : (5156902474397 - 1) / 2 = 2578451237198 := by norm_num
        rw [he, zmod_pow_natCast 5156902474397 2 2578451237198 (by norm_num)]
        have hv : powMod 2 2578451237198 5156902474397 = 5156902474396 := by decide
        rw [hv, ← Nat.cast_one]
        exact zmod_natCast_ne 5156902474397 5156902474396 1 (by norm_num) (by norm_num) (by norm_num)
      · have hqe1 : q = 107 := (Nat.prime_dvd_prime_iff_eq hq prime_107).mp hT1
        subst hqe1
        have he : (5156902474397 - 1) / 107 = 48195350228 := by norm_num
        rw [he, zmod_pow_natCast 5156902474397 2 48195350228 (by norm_num)]
        have hv : powMod 2 48195350228 5156902474397 = 4827909776387 := by decide
        rw [hv, ← Nat.cast_one]
        exact zmod_natCast_ne 5156902474397 4827909776387 1 (by norm_num) (by norm_num) (by norm_num)
    · have hqe2 : q = 12048837557 := (Nat.prime_dvd_prime_iff_eq hq prime_12048837557).mp hT2
      subst hqe2
      have he : (5156902474397 - 1) / 12048837557 = 428 := by norm_num
      rw [he, zmod_pow_natCast 5156902474397 2 428 (by norm_num)]
      have hv : powMod 2 428 5156902474397 = 4746712836098 := by decide
      rw [hv, ← Nat.cast_one]
      exact zmod_natCast_ne 5156902474397 4746712836098 1 (by norm_num) (by norm_num) (by norm_num)

theorem prime_1670836401704629 : Nat.Prime 1670836401704629 := by
  have hfac : 1670836401704629 - 1 = 2 ^ 2 * 3 ^ 4 * 5156902474397 := by norm_num
  refine lucas_primality 1670836401704629 ((2 : ℕ) : ZMod 1670836401704629) ?_ ?_
  · have h : powMod 2 (1670836401704629 - 1) 1670836401704629 = 1 := by decide
    rw [zmod_pow_natCast 1670836401704629 2 (1670836401704629 - 1) (by norm_num), h, Nat.cast_one]
  · intro q hq hdvd
    rw [hfac] at hdvd
    rcases (Nat.Prime.dvd_mul hq).mp hdvd with hL2 | hT2
    · rcases (Nat.Prime.dvd_mul hq).mp hL2 with hL1 | hT1
      · have hdp0 := Nat.Prime.dvd_of_dvd_pow hq hL1
        have hqe0 : q = 2 := (Nat.prime_dvd_prime_iff_eq hq prime_2).mp hdp0
        subst hqe0
        have he : (1670836401704629 - 1) / 2 = 835418200852314 := by norm_num
        rw [he, zmod_pow_natCast 1670836401704629 2 835418200852314 (by norm_num)]
        have hv : powMod 2 835418200852314 1670836401704629 = 1670836401704628 := by decide
        rw [hv, ← Nat.cast_one]
        exact zmod_natCast_ne 1670836401704629 1670836401704628 1 (by norm_num) (by norm_num) (by norm_num)
      · have hdp1 := Nat.Prime.dvd_of_dvd_pow hq hT1
        have hqe1 : q = 3 := (Nat.prime_dvd_prime_iff_eq hq prime_3).mp hdp1
        subst hqe1
        have he : (1670836401704629 - 1) / 3 = 556945467234876 := by norm_num
        rw [he, zmod_pow_natCast 1670836401704629 2 556945467234876 (by norm_num)]
        have hv : powMod 2 556945467234876 1670836401704629 = 1322408984917240 := by decide
        rw [hv, ← Nat.cast_one]
        exact zmod_natCast_ne 1670836401704629 1322408984917240 1 (by norm_num) (by norm_num) (by norm_num)
    · have hqe2 : q = 5156902474397 := (Nat.prime_dvd_prime_iff_eq hq prime_5156902474397).mp hT2
      subst hqe2
      have he : (1670836401704629 - 1) / 5156902474397 = 324 := by norm_num
      rw [he, zmod_pow_natCast 1670836401704629 2 324 (by norm_num)]
      have hv : powMod 2 324 1670836401704629 = 11046204280772 := by decide
      rw [hv, ← Nat.cast_one]
      exact zmod_natCast_ne 1670836401704629 11046204280772 1 (by norm_num) (by norm_num) (by norm_num)

theorem prime_65865678001877903 : Nat.Prime 65865678001877903 := by
  have hfac : 65865678001877903 - 1 = 2 * 83 * 379 * 1637 * 639533339 := by norm_num
  refine lucas_primality 65865678001877903 ((5 : ℕ) : ZMod 65865678001877903) ?_ ?_
  · have h : powMod 5 (65865678001877903 - 1) 65865678001877903 = 1 := by decide
    rw [zmod_pow_natCast 65865678001877903 5 (65865678001877903 - 1) (by norm_num), h, Nat.cast_one]
  · intro q hq hdvd
    rw [hfac] at hdvd
    rcases (Nat.Prime.dvd_mul hq).mp hdvd with hL4 | hT4
    · rcases (Nat.Prime.dvd_mul hq).mp hL4 with hL3 | hT3
      · rcases (Nat.Prime.dvd_mul hq).mp hL3 with hL2 | hT2
        · rcases (Nat.Prime.dvd_mul hq).mp hL2 with hL1 | hT1
          · have hqe0 : q = 2 := (Nat.prime_dvd_prime_iff_eq hq prime_2).mp hL1
            subst hqe0
            have he : (65865678001877903 - 1) / 2 = 32932839000938951 := by norm_num
            rw [he, zmod_pow_natCast 65865678001877903 5 32932839000938951 (by norm_num)]
            have hv : powMod 5 32932839000938951 65865678001877903 = 65865678001877902 := by decide
            rw [hv, ← Nat.cast_one]
            exact zmod_natCast_ne 65865678001877903 65865678001877902 1 (by norm_num) (by norm_num) (by norm_num)
          · have hqe1 : q = 83 := (Nat.prime_dvd_prime_iff_eq hq prime_83).mp hT1
            subst hqe1
            have he : (65865678001877903 - 1) / 83 = 793562385564794 := by norm_num
            rw [he, zmod_pow_natCast 65865678001877903 5 793562385564794 (by norm_num)]
            have hv : powMod 5 793562385564794 65865678001877903 = 46316002665751102 := by decide
            rw [hv, ← Nat.cast_one]
            exact zmod_natCast_ne 65865678001877903 46316002665751102 1 (by norm_num) (by norm_num) (by norm_num)
        · have hqe2 : q = 379 := (Nat.prime_dvd_prime_iff_eq hq prime_379).mp hT2
          subst hqe2
          have he : (65865678001877903 - 1) / 379 = 173788068606538 := by norm_num
          rw [he, zmod_pow_natCast 65865678001877903 5 173788068606538 (by norm_num)]
          have hv : powMod 5 173788068606538 65865678001877903 = 43783936274874531 := by decide
          rw [hv, ← Nat.cast_one]
          exact zmod_natCast_ne 65865678001877903 43783936274874531 1 (by norm_num) (by norm_num) (by norm_num)
      · have hqe3 : q = 1637 := (Nat.prime_dvd_prime_iff_eq hq prime_1637).mp hT3
        subst hqe3
        have he : (65865678001877903 - 1) / 1637 = 40235600489846 := by norm_num
        rw [he, zmod_pow_natCast 65865678001877903 5 40235600489846 (by norm_num)]
        have hv : powMod 5 40235600489846 65865678001877903 = 56641079936670322 := by decide
        rw [hv, ← Nat.cast_one]
        exact zmod_natCast_ne 65865678001877903 56641079936670322 1 (by norm_num) (by norm_num) (by norm_num)
    · have hqe4 : q = 639533339 := (Nat.prime_dvd_prime_iff_eq hq prime_639533339).mp hT4
      subst hqe4
      have he : (65865678001877903 - 1) / 639533339 = 102990218 := by norm_num
      rw [he, zmod_pow_natCast 65865678001877903 5 102990218 (by norm_num)]
      have hv : powMod 5 102990218 65865678001877903 = 18968088485270649 := by decide
      rw [hv, ← Nat.cast_one]
      exact zmod_natCast_ne 65865678001877903 18968088485270649 1 (by norm_num) (by norm_num) (by norm_num)

theorem prime_13818364434197438864469338081 : Nat.Prime 13818364434197438864469338081 := by
  have hfac : 13818364434197438864469338081 - 1 = 2 ^ 5 * 5 * 823 * 1593227 * 65865678001877903 := by norm_num
  refine lucas_primality 13818364434197438864469338081 ((3 : ℕ) : ZMod 13818364434197438864469338081) ?_ ?_
  · have h : powMod 3 (13818364434197438864469338081 - 1) 13818364434197438864469338081 = 1 := by decide
    rw [zmod_pow_natCast 13818364434197438864469338081 3 (13818364434197438864469338081 - 1) (by norm_num), h, Nat.cast_one]
  · intro q hq hdvd
    rw [hfac] at hdvd
    rcases (Nat.Prime.dvd_mul hq).mp hdvd with hL4 | hT4
    · rcases (Nat.Prime.dvd_mul hq).mp hL4 with hL3 | hT3
      · rcases (Nat.Prime.dvd_mul hq).mp hL3 with hL2 | hT2
        · rcases (Nat.Prime.dvd_mul hq).mp hL2 with hL1 | hT1
          · have hdp0 := Nat.Prime.dvd_of_dvd_pow hq hL1
            have hqe0 : q = 2 := (Nat.prime_dvd_prime_iff_eq hq prime_2).mp hdp0
            subst hqe0
            have he : (13818364434197438864469338081 - 1) / 2 = 6909182217098719432234669040 := by norm_num
            rw [he, zmod_pow_natCast 13818364434197438864469338081 3 6909182217098719432234669040 (by norm_num)]
            have hv : powMod 3 6909182217098719432234669040 13818364434197438864469338081 = 13818364434197438864469338080 := by decide
            rw [hv, ← Nat.cast_one]
            exact zmod_natCast_ne 13818364434197438864469338081 13818364434197438864469338080 1 (by norm_num) (by norm_num) (by norm_num)
          · have hqe1 : q = 5 := (Nat.prime_dvd_prime_iff_eq hq prime_5).mp hT1
            subst hqe1
            have he : (13818364434197438864469338081 - 1) / 5 = 2763672886839487772893867616 := by norm_num
            rw [he, zmod_pow_natCast 13818364434197438864469338081 3 2763672886839487772893867616 (by norm_num)]
            have hv : powMod 3 2763672886839487772893867616 13818364434197438864469338081 = 1236319344469036993987267104 := by decide
            rw [hv, ← Nat.cast_one]
            exact zmod_natCast_ne 13818364434197438864469338081 1236319344469036993987267104 1 (by norm_num) (by norm_num) (by norm_num)
        · have hqe2 : q = 823 := (Nat.prime_dvd_prime_iff_eq hq prime_823).mp hT2
          subst hqe2
          have he : (13818364434197438864469338081 - 1) / 823 = 16790236250543668122076960 := by norm_num
          rw [he, zmod_pow_natCast 13818364434197438864469338081 3 16790236250543668122076960 (by norm_num)]
          have hv : powMod 3 16790236250543668122076960 13818364434197438864469338081 = 570363171180057177517864248 := by decide
          rw [hv, ← Nat.cast_one]
          exact zmod_natCast_ne 13818364434197438864469338081 570363171180057177517864248 1 (by norm_num) (by norm_num) (by norm_num)
      · have hqe3 : q = 1593227 := (Nat.prime_dvd_prime_iff_eq hq prime_1593227).mp hT3
        subst hqe3
        have he : (13818364434197438864469338081 - 1) / 1593227 = 8673192479287282267040 := by norm_num
        rw [he, zmod_pow_natCast 13818364434197438864469338081 3 8673192479287282267040 (by norm_num)]
        have hv : powMod 3 8673192479287282267040 13818364434197438864469338081 = 9233249052774251384923794665 := by decide
        rw [hv, ← Nat.cast_one]
        exact zmod_natCast_ne 13818364434197438864469338081 9233249052774251384923794665 1 (by norm_num) (by norm_num) (by norm_num)
    · have hqe4 : q = 65865678001877903 := (Nat.prime_dvd_prime_iff_eq hq prime_65865678001877903).mp hT4
      subst hqe4
      have he : (13818364434197438864469338081 - 1) / 65865678001877903 = 209796131360 := by norm_num
      rw [he, zmod_pow_natCast 13818364434197438864469338081 3 209796131360 (by norm_num)]
      have hv : powMod 3 209796131360 13818364434197438864469338081 = 11685553033882782147454259209 := by decide
      rw [hv, ← Nat.cast_one]
      exact zmod_natCast_ne 13818364434197438864469338081 11685553033882782147454259209 1 (by norm_num) (by norm_num) (by norm_num)

theorem prime_21888242871839275222246405745257275088548364400416034343698204186575808495617 : Nat.Prime 21888242871839275222246405745257275088548364400416034343698204186575808495617 := by
  have hfac : 21888242871839275222246405745257275088548364400416034343698204186575808495617 - 1 = 2 ^ 28 * 3 ^ 2 * 13 * 29 * 983 * 11003 * 237073 * 405928799 * 1670836401704629 * 13818364434197438864469338081 := by norm_num
  refine lucas_primality 21888242871839275222246405745257275088548364400416034343698204186575808495617 ((5 : ℕ) : ZMod 21888242871839275222246405745257275088548364400416034343698204186575808495617) ?_ ?_
  · have h : powMod 5 (21888242871839275222246405745257275088548364400416034343698204186575808495617 - 1) 21888242871839275222246405745257275088548364400416034343698204186575808495617 = 1 := by decide
    rw [zmod_pow_natCast 21888242871839275222246405745257275088548364400416034343698204186575808495617 5 (21888242871839275222246405745257275088548364400416034343698204186575808495617 - 1) (by norm_num), h, Nat.cast_one]
  · intro q hq hdvd
    rw [hfac] at hdvd
    rcases (Nat.Prime.dvd_mul hq).mp hdvd with hL9 | hT9
    · rcases (Nat.Prime.dvd_mul hq).mp hL9 with hL8 | hT8
      · rcases (Nat.Prime.dvd_mul hq).mp hL8 with hL7 | hT7
        · rcases (Nat.Prime.dvd_mul hq).mp hL7 with hL6 | hT6
          · rcases (Nat.Prime.dvd_mul hq).mp hL6 with hL5 | hT5
            · rcases (Nat.Prime.dvd_mul hq).mp hL5 with hL4 | hT4
              · rcases (Nat.Prime.dvd_mul hq).mp hL4 with hL3 | hT3
                · rcases (Nat.Prime.dvd_mul hq).mp hL3 with hL2 | hT2
                  · rcases (Nat.Prime.dvd_mul hq).mp hL2 with hL1 | hT1
                    · have hdp0 := Nat.Prime.dvd_of_dvd_pow hq hL1
                      have hqe0 : q = 2 := (Nat.prime_dvd_prime_iff_eq hq prime_2).mp hdp0
                      subst hqe0
                      have he : (21888242871839275222246405745257275088548364400416034343698204186575808495617 - 1) / 2 = 10944121435919637611123202872628637544274182200208017171849102093287904247808 := by norm_num
                      rw [he, zmod_pow_natCast 21888242871839275222246405745257275088548364400416034343698204186575808495617 5 10944121435919637611123202872628637544274182200208017171849102093287904247808 (by norm_num)]
                      have hv : powMod 5 10944121435919637611123202872628637544274182200208017171849102093287904247808 21888242871839275222246405745257275088548364400416034343698204186575808495617 = 21888242871839275222246405745257275088548364400416034343698204186575808495616 := by decide
                      rw [hv, ← Nat.cast_one]
                      exact zmod_natCast_ne 21888242871839275222246405745257275088548364400416034343698204186575808495617 21888242871839275222246405745257275088548364400416034343698204186575808495616 1 (by norm_num) (by norm_num) (by norm_num)
                    · have hdp1 := Nat.Prime.dvd_of_dvd_pow hq hT1
                      have hqe1 : q = 3 := (Nat.prime_dvd_prime_iff_eq hq prime_3).mp hdp1
                      subst hqe1
                      have he : (21888242871839275222246405745257275088548364400416034343698204186575808495617 - 1) / 3 = 7296080957279758407415468581752425029516121466805344781232734728858602831872 := by norm_num
                      rw [he, zmod_pow_natCast 21888242871839275222246405745257275088548364400416034343698204186575808495617 5 7296080957279758407415468581752425029516121466805344781232734728858602831872 (by norm_num)]
                      have hv : powMod 5 7296080957279758407415468581752425029516121466805344781232734728858602831872 21888242871839275222246405745257275088548364400416034343698204186575808495617 = 4407920970296243842393367215006156084916469457145843978461 := by decide
                      rw [hv, ← Nat.cast_one]
                      exact zmod_natCast_ne 21888242871839275222246405745257275088548364400416034343698204186575808495617 4407920970296243842393367215006156084916469457145843978461 1 (by norm_num) (by norm_num) (by norm_num)
                  · have hqe2 : q = 13 := (Nat.prime_dvd_prime_iff_eq hq prime_13).mp hT2
                    subst hqe2
                    have he : (21888242871839275222246405745257275088548364400416034343698204186575808495617 - 1) / 13 = 1683710990141482709403569672712098083734489569262771872592169552813523730432 := by norm_num
                    rw [he, zmod_pow_natCast 21888242871839275222246405745257275088548364400416034343698204186575808495617 5 1683710990141482709403569672712098083734489569262771872592169552813523730432 (by norm_num)]
                    have hv : powMod 5 1683710990141482709403569672712098083734489569262771872592169552813523730432 21888242871839275222246405745257275088548364400416034343698204186575808495617 = 20846111736645777009767703653665533493788639406277865704073555848150445038125 := by decide
                    rw [hv, ← Nat.cast_one]
                    exact zmod_natCast_ne 21888242871839275222246405745257275088548364400416034343698204186575808495617 20846111736645777009767703653665533493788639406277865704073555848150445038125 1 (by norm_num) (by norm_num) (by norm_num)
                · have hqe3 : q = 29 := (Nat.prime_dvd_prime_iff_eq hq prime_29).mp hT3
                  subst hqe3
                  have he : (21888242871839275222246405745257275088548364400416034343698204186575808495617 - 1) / 29 = 754766995580664662836082956733009485812012565531587391162007040916407189504 := by norm_num
                  rw [he, zmod_pow_natCast 21888242871839275222246405745257275088548364400416034343698204186575808495617 5 754766995580664662836082956733009485812012565531587391162007040916407189504 (by norm_num)]
                  have hv : powMod 5 754766995580664662836082956733009485812012565531587391162007040916407189504 21888242871839275222246405745257275088548364400416034343698204186575808495617 = 18357710930920482893114740859477755941065533295300174657912055312005893977631 := by decide
                  rw [hv, ← Nat.cast_one]
                  exact zmod_natCast_ne 21888242871839275222246405745257275088548364400416034343698204186575808495617 18357710930920482893114740859477755941065533295300174657912055312005893977631 1 (by norm_num) (by norm_num) (by norm_num)
              · have hqe4 : q = 983 := (Nat.prime_dvd_prime_iff_eq hq prime_983).mp hT4
                subst hqe4
                have he : (21888242871839275222246405745257275088548364400416034343698204186575808495617 - 1) / 983 = 22266778099531307448877320188461114027007491760341845720954429487869591552 := by norm_num
                rw [he, zmod_pow_natCast 21888242871839275222246405745257275088548364400416034343698204186575808495617 5 22266778099531307448877320188461114027007491760341845720954429487869591552 (by norm_num)]
                have hv : powMod 5 22266778099531307448877320188461114027007491760341845720954429487869591552 21888242871839275222246405745257275088548364400416034343698204186575808495617 = 16151937248511612831218790030381502136078900305644383989873770910345603053439 := by decide
                rw [hv, ← Nat.cast_one]
                exact zmod_natCast_ne 21888242871839275222246405745257275088548364400416034343698204186575808495617 16151937248511612831218790030381502136078900305644383989873770910345603053439 1 (by norm_num) (by norm_num) (by norm_num)
            · have hqe5 : q = 11003 := (Nat.prime_dvd_prime_iff_eq hq prime_11003).mp hT5
              subst hqe5
              have he : (21888242871839275222246405745257275088548364400416034343698204186575808495617 - 1) / 11003 = 1989297725333025104266691424634851866631679033028813445760083994053967872 := by norm_num
              rw [he, zmod_pow_natCast 21888242871839275222246405745257275088548364400416034343698204186575808495617 5 1989297725333025104266691424634851866631679033028813445760083994053967872 (by norm_num)]
              have hv : powMod 5 1989297725333025104266691424634851866631679033028813445760083994053967872 21888242871839275222246405745257275088548364400416034343698204186575808495617 = 8299083658399422953216871473066571686783765754016288837524968026835148283600 := by decide
              rw [hv, ← Nat.cast_one]
              exact zmod_natCast_ne 21888242871839275222246405745257275088548364400416034343698204186575808495617 8299083658399422953216871473066571686783765754016288837524968026835148283600 1 (by norm_num) (by norm_num) (by norm_num)
          · have hqe6 : q = 237073 := (Nat.prime_dvd_prime_iff_eq hq prime_237073).mp hT6
            subst hqe6
            have he : (21888242871839275222246405745257275088548364400416034343698204186575808495617 - 1) / 237073 = 92327016875980289709272695521030547926370208334209439049146061283131392 := by norm_num
            rw [he, zmod_pow_natCast 21888242871839275222246405745257275088548364400416034343698204186575808495617 5 92327016875980289709272695521030547926370208334209439049146061283131392 (by norm_num)]
            have hv : powMod 5 92327016875980289709272695521030547926370208334209439049146061283131392 21888242871839275222246405745257275088548364400416034343698204186575808495617 = 1135558486015409621676726807058439328573409521523979529600469708688064761941 := by decide
            rw [hv, ← Nat.cast_one]
            exact zmod_natCast_ne 21888242871839275222246405745257275088548364400416034343698204186575808495617 1135558486015409621676726807058439328573409521523979529600469708688064761941 1 (by norm_num) (by norm_num) (by norm_num)
        · have hqe7 : q = 405928799 := (Nat.prime_dvd_prime_iff_eq hq prime_405928799).mp hT7
          subst hqe7
          have he : (21888242871839275222246405745257275088548364400416034343698204186575808495617 - 1) / 405928799 = 53921384552563552462426805409431605981098090062873401459989056323584 := by norm_num
          rw [he, zmod_pow_natCast 21888242871839275222246405745257275088548364400416034343698204186575808495617 5 53921384552563552462426805409431605981098090062873401459989056323584 (by norm_num)]
          have hv : powMod 5 53921384552563552462426805409431605981098090062873401459989056323584 21888242871839275222246405745257275088548364400416034343698204186575808495617 = 19321818016159037061311250724021617607548090886696614157910334987366532500238 := by decide
          rw [hv, ← Nat.cast_one]
          exact zmod_natCast_ne 21888242871839275222246405745257275088548364400416034343698204186575808495617 19321818016159037061311250724021617607548090886696614157910334987366532500238 1 (by norm_num) (by norm_num) (by norm_num)
      · have hqe8 : q = 1670836401704629 := (Nat.prime_dvd_prime_iff_eq hq prime_1670836401704629).mp hT8
        subst hqe8
        have he : (21888242871839275222246405745257275088548364400416034343698204186575808495617 - 1) / 1670836401704629 = 13100171177446423556613374118717413492986637444144570673659904 := by norm_num
        rw [he, zmod_pow_natCast 21888242871839275222246405745257275088548364400416034343698204186575808495617 5 13100171177446423556613374118717413492986637444144570673659904 (by norm_num)]
        have hv : powMod 5 13100171177446423556613374118717413492986637444144570673659904 21888242871839275222246405745257275088548364400416034343698204186575808495617 = 19643034808648967981397807206080768497060516784825884862247505212574391305991 := by decide
        rw [hv, ← Nat.cast_one]
        exact zmod_natCast_ne 21888242871839275222246405745257275088548364400416034343698204186575808495617 19643034808648967981397807206080768497060516784825884862247505212574391305991 1 (by norm_num) (by norm_num) (by norm_num)
    · have hqe9 : q = 13818364434197438864469338081 := (Nat.prime_dvd_prime_iff_eq hq prime_13818364434197438864469338081).mp hT9
      subst hqe9
      have he : (21888242871839275222246405745257275088548364400416034343698204186575808495617 - 1) / 13818364434197438864469338081 = 1583996642733683218748855262055434666238317428736 := by norm_num
      rw [he, zmod_pow_natCast 21888242871839275222246405745257275088548364400416034343698204186575808495617 5 1583996642733683218748855262055434666238317428736 (by norm_num)]
      have hv : powMod 5 1583996642733683218748855262055434666238317428736 21888242871839275222246405745257275088548364400416034343698204186575808495617 = 7740382856488830440021062471495669005558519249383073335662966997885018076746 := by decide
      rw [hv, ← Nat.cast_one]
      exact zmod_natCast_ne 21888242871839275222246405745257275088548364400416034343698204186575808495617 7740382856488830440021062471495669005558519249383073335662966997885018076746 1 (by norm_num) (by norm_num) (by norm_num)

/-! ## The BabyJubJub curve over the BN254 scalar field, embedded from
crates/schnorr-core/src/curve.rs. -/

/-- BN254 scalar-field prime: the base field of BabyJubJub. -/
def pBN : ℕ := 21888242871839275222246405745257275088548364400416034343698204186575808495617

/-- BabyJubJub prime subgroup order n. -/
def nBJJ : ℕ := 2736030358979909402780800718157159386076813972158567259200215660948447373041

theorem pBN_prime : Nat.Prime pBN :=
  prime_21888242871839275222246405745257275088548364400416034343698204186575808495617

instance : Fact (Nat.Prime pBN) := ⟨pBN_prime⟩

instance : NeZero pBN := ⟨pBN_prime.pos.ne'⟩

instance : NeZero nBJJ := ⟨by decide⟩

instance : Fact (1 < pBN) := ⟨pBN_prime.one_lt⟩

/-- The base field F_p (ark_bn254::Fr in the sources). -/
abbrev Fq := ZMod pBN

/-- The scalar field Z_n (ark_ed_on_bn254::Fr in the sources). -/
abbrev Fr := ZMod nBJJ

/-- Field inversion realized by Fermat exponentiation; agrees with the
field inverse of F_p (and maps 0 to 0, as arkworks' inverse is never
invoked on 0 without aborting first). -/
def finv (z : Fq) : Fq := ((powMod z.val (pBN - 2) pBN : ℕ) : Fq)

theorem pBN_big : 2 < pBN := by unfold pBN; norm_num

theorem finv_eq (z : Fq) : finv z = z⁻¹ := by
  have hlt : pBN - 2 < 2 ^ 300 := by unfold pBN; norm_num
  have hval : ((z.val : ℕ) : Fq) = z := ZMod.natCast_rightInverse z
  have hpow : finv z = z ^ (pBN - 2) := by
    unfold finv
    rw [← zmod_pow_natCast pBN z.val (pBN - 2) hlt, hval]
  rw [hpow]
  by_cases hz : z = 0
  · subst hz
    rw [zero_pow (by have := pBN_big; omega), inv_zero]
  · have hferm : z ^ (pBN - 1) = 1 := ZMod.pow_card_sub_one_eq_one hz
    have hstep : z ^ (pBN - 2) * z = 1 := by
      rw [← pow_succ]
      have : pBN - 2 + 1 = pBN - 1 := by have := pBN_big; omega
      rw [this, hferm]
    exact eq_inv_of_mul_eq_one_left hstep

/-- Curve coefficient a = 168700. -/
def A_COEFF : ℕ := 168700

/-- Curve coefficient d = 168696. -/
def D_COEFF : ℕ := 168696

def aC : Fq := (A_COEFF : Fq)

def dC : Fq := (D_COEFF : Fq)

/-- circomlib Base8 generator x-coordinate. -/
def BASE8_X : ℕ := 5299619240641551281634865583518297030282874472190772894086521144482721001553

/-- circomlib Base8 generator y-coordinate. -/
def BASE8_Y : ℕ := 16950150798460657717958625567821834550301663161624707787222815936182638968203

/-- A point on the BabyJubJub twisted Edwards curve, affine (x, y). -/
structure BjjPoint where
  x : Fq
  y : Fq
deriving DecidableEq

/-- The identity point (0, 1). -/
def BjjPoint.identity : BjjPoint := ⟨0, 1⟩

/-- The circomlib Base8 generator of the prime-order subgroup. -/
def BjjPoint.generator : BjjPoint := ⟨(BASE8_X : Fq), (BASE8_Y : Fq)⟩

/-- Curve membership: a*x^2 + y^2 = 1 + d*x^2*y^2. -/
def BjjPoint.is_on_curve (P : BjjPoint) : Bool :=
  aC * (P.x * P.x) + P.y * P.y == 1 + dC * (P.x * P.x) * (P.y * P.y)

/-- Identity test: (x, y) = (0, 1). -/
def BjjPoint.is_zero (P : BjjPoint) : Bool :=
  P.x == 0 && P.y == 1

/-- Twisted Edwards addition (total form, using the Fermat inverse;
the zero-denominator aborts of the source are captured by addChecked). -/
def BjjPoint.add (P Q : BjjPoint) : BjjPoint :=
  let x1y2 := P.x * Q.y
  let y1x2 := P.y * Q.x
  let x1x2 := P.x * Q.x
  let y1y2 := P.y * Q.y
  let dx1x2y1y2 := dC * x1x2 * y1y2
  ⟨(x1y2 + y1x2) * finv (1 + dx1x2y1y2),
   (y1y2 - aC * x1x2) * finv (1 - dx1x2y1y2)⟩

/-- Twisted Edwards addition with the source's abort behaviour made
explicit: none models the expect-abort on a zero denominator. -/
def BjjPoint.addChecked (P Q : BjjPoint) : Option BjjPoint :=
  let x1y2 := P.x * Q.y
  let y1x2 := P.y * Q.x
  let x1x2 := P.x * Q.x
  let y1y2 := P.y * Q.y
  let dx1x2y1y2 := dC * x1x2 * y1y2
  if 1 + dx1x2y1y2 = 0 then none
  else if 1 - dx1x2y1y2 = 0 then none
  else some ⟨(x1y2 + y1x2) * finv (1 + dx1x2y1y2),
             (y1y2 - aC * x1x2) * finv (1 - dx1x2y1y2)⟩

/-- A scalar in the BabyJubJub subgroup field Z_n. -/
abbrev BjjScalar := Fr

/-- Canonical 32-byte little-endian encoding of a scalar. -/
def BjjScalar.to_bytes_le (s : BjjScalar) : List ℕ := toBytesLE 32 s.val

/-- Little-endian bits of a scalar: bytes expanded LSB-first, then
truncated to 253 bits, exactly as in the source. -/
def BjjScalar.to_bits_le (s : BjjScalar) : List Bool :=
  (bytesToBitsLE (BjjScalar.to_bytes_le s)).take 253

/-- Little-endian bits of a base-field element, truncated to 254 bits. -/
def bn254_to_bits_le (f : Fq) : List Bool :=
  (bytesToBitsLE (toBytesLE 32 f.val)).take 254

/-- The double-and-add loop shared by both scalar multiplications. -/
def mulLoop : List Bool → BjjPoint → BjjPoint → BjjPoint
  | [], result, _ => result
  | bit :: bits, result, temp =>
      mulLoop bits (if bit then result.add temp else result) (temp.add temp)

/-- The double-and-add loop with abort propagation. -/
def mulLoopChecked : List Bool → BjjPoint → BjjPoint → Option BjjPoint
  | [], result, _ => some result
  | bit :: bits, result, temp =>
      match (if bit then result.addChecked temp else some result),
            temp.addChecked temp with
      | some r2, some t2 => mulLoopChecked bits r2 t2
      | _, _ => none

/-- Scalar multiplication by a BJJ scalar (double-and-add, 253 bits). -/
def BjjPoint.scalar_mul (P : BjjPoint) (s : BjjScalar) : BjjPoint :=
  mulLoop (BjjScalar.to_bits_le s) BjjPoint.identity P

def BjjPoint.scalar_mulChecked (P : BjjPoint) (s : BjjScalar) : Option BjjPoint :=
  mulLoopChecked (BjjScalar.to_bits_le s) BjjPoint.identity P

/-- Scalar multiplication by a BN254 field element (254 bits, unreduced). -/
def BjjPoint.mul_by_bn254_scalar (P : BjjPoint) (e : Fq) : BjjPoint :=
  mulLoop (bn254_to_bits_le e) BjjPoint.identity P

def BjjPoint.mul_by_bn254_scalarChecked (P : BjjPoint) (e : Fq) : Option BjjPoint :=
  mulLoopChecked (bn254_to_bits_le e) BjjPoint.identity P

/-- Convert a BN254 field element to a BJJ scalar (mod n), through the
little-endian byte encoding as in the source. -/
def bn254_to_bjj_scalar (e : Fq) : BjjScalar :=
  ((fromLeBytesNat (toBytesLE 32 e.val) : ℕ) : Fr)


/-! ## Hashes (modelled as parameters), keys, signing and verification,
embedded from hash.rs, keypair.rs, sign.rs and verify.rs. -/

/-- Model of the external hash primitives used by the core: circomlib
Poseidon with 4 field inputs, SHA-256 and SHA-512 on byte strings.
They are deterministic functions; no other property is assumed. -/
structure HashModel where
  poseidon4 : Fq → Fq → Fq → Fq → Fq
  sha256 : List ℕ → List ℕ
  sha512 : List ℕ → List ℕ

/-- e = Poseidon(r_x, pk_x, pk_y, message_hash), in F_p. -/
def schnorr_challenge (H : HashModel) (r_x pk_x pk_y message_hash : Fq) : Fq :=
  H.poseidon4 r_x pk_x pk_y message_hash

/-- SHA-256(message), interpreted little-endian, reduced mod p. -/
def hash_message_to_field (H : HashModel) (message : List ℕ) : Fq :=
  ((fromLeBytesNat (H.sha256 message) : ℕ) : Fq)

/-- A Schnorr public key (a point on BabyJubJub). -/
structure PublicKey where
  point : BjjPoint

def PublicKey.coords (pk : PublicKey) : Fq × Fq := (pk.point.x, pk.point.y)

/-- A Schnorr keypair over BabyJubJub. -/
structure KeyPair where
  sk : BjjScalar
  pk : PublicKey

/-- Derive a keypair from an existing private scalar: pk = sk·G. -/
def KeyPair.from_private_key (sk : BjjScalar) : KeyPair :=
  ⟨sk, ⟨BjjPoint.generator.scalar_mul sk⟩⟩

/-- A Schnorr signature (s, e) with the commitment point r retained. -/
structure Signature where
  s : BjjScalar
  e : Fq
  r : BjjPoint

/-- k = SHA-512(sk_bytes || message) interpreted little-endian, mod n. -/
def deterministic_nonce (H : HashModel) (sk : BjjScalar) (message : List ℕ) :
    BjjScalar :=
  ((fromLeBytesNat (H.sha512 (BjjScalar.to_bytes_le sk ++ message)) : ℕ) : Fr)

/-- Sign with an explicit nonce (sign_with_nonce in the source). -/
def Signature.sign_with_nonce (H : HashModel) (keypair : KeyPair)
    (message : List ℕ) (k : BjjScalar) : Signature :=
  let g := BjjPoint.generator
  let r := g.scalar_mul k
  let msg_hash := hash_message_to_field H message
  let e : Fq := schnorr_challenge H r.x keypair.pk.point.x keypair.pk.point.y msg_hash
  let e_n : BjjScalar := bn254_to_bjj_scalar e
  let s : BjjScalar := k - e_n * keypair.sk
  ⟨s, e, r⟩

/-- Sign a message with the given keypair (deterministic nonce). -/
def Signature.sign (H : HashModel) (keypair : KeyPair) (message : List ℕ) :
    Signature :=
  Signature.sign_with_nonce H keypair message
    (deterministic_nonce H keypair.sk message)

/-- Result of signature verification. -/
inductive VerifyResult where
  | Valid : VerifyResult
  | Invalid : VerifyResult
deriving DecidableEq

/-- Verification (total core): recompute R' = s·G + e·PK and the
challenge from it, and compare with sig.e. -/
def verify (H : HashModel) (sig : Signature) (message : List ℕ)
    (pk : PublicKey) : VerifyResult :=
  let g := BjjPoint.generator
  let s_g := g.scalar_mul sig.s
  let e_pk := pk.point.mul_by_bn254_scalar sig.e
  let r_prime := s_g.add e_pk
  let msg_hash := hash_message_to_field H message
  let e_check := schnorr_challenge H r_prime.x pk.point.x pk.point.y msg_hash
  if e_check = sig.e then VerifyResult.Valid else VerifyResult.Invalid

/-- Verification with the abort behaviour of the embedded point
arithmetic made explicit (none = abort in add / scalar_mul). -/
def verifyChecked (H : HashModel) (sig : Signature) (message : List ℕ)
    (pk : PublicKey) : Option VerifyResult :=
  match BjjPoint.scalar_mulChecked BjjPoint.generator sig.s with
  | none => none
  | some s_g =>
    match BjjPoint.mul_by_bn254_scalarChecked pk.point sig.e with
    | none => none
    | some e_pk =>
      match s_g.addChecked e_pk with
      | none => none
      | some r_prime =>
        let msg_hash := hash_message_to_field H message
        let e_check := schnorr_challenge H r_prime.x pk.point.x pk.point.y msg_hash
        some (if e_check = sig.e then VerifyResult.Valid else VerifyResult.Invalid)


/-! ## Basic facts about the embedded bit decompositions. -/

theorem nBJJ_lt_2_253 : nBJJ < 2 ^ 253 := by unfold nBJJ; norm_num

theorem nBJJ_bits : 2 ^ 250 ≤ nBJJ ∧ nBJJ < 2 ^ 251 := by unfold nBJJ; norm_num

theorem pBN_lt_2_254 : pBN < 2 ^ 254 := by unfold pBN; norm_num

theorem to_bits_le_eq (s : BjjScalar) :
    BjjScalar.to_bits_le s = natBitsLE 253 s.val := by
  unfold BjjScalar.to_bits_le BjjScalar.to_bytes_le
  rw [bytesToBitsLE_toBytesLE 32 s.val]
  exact natBitsLE_take 253 (8 * 32) s.val (by norm_num)

theorem bn254_to_bits_le_eq (f : Fq) :
    bn254_to_bits_le f = natBitsLE 254 f.val := by
  unfold bn254_to_bits_le
  rw [bytesToBitsLE_toBytesLE 32 f.val]
  exact natBitsLE_take 254 (8 * 32) f.val (by norm_num)

theorem to_bits_le_val (s : BjjScalar) :
    bitsVal (BjjScalar.to_bits_le s) = s.val := by
  rw [to_bits_le_eq]
  exact bitsVal_natBitsLE 253 s.val (lt_trans s.val_lt nBJJ_lt_2_253)

theorem bn254_to_bits_le_val (f : Fq) :
    bitsVal (bn254_to_bits_le f) = f.val := by
  rw [bn254_to_bits_le_eq]
  exact bitsVal_natBitsLE 254 f.val (lt_trans f.val_lt pBN_lt_2_254)

theorem bn254_to_bjj_scalar_eq (e : Fq) :
    bn254_to_bjj_scalar e = ((e.val : ℕ) : Fr) := by
  unfold bn254_to_bjj_scalar
  rw [fromLeBytesNat_toBytesLE 32 e.val
    (lt_trans e.val_lt (by unfold pBN; norm_num))]

/-! ## The curve equation as a proposition, and the quadratic character
of the curve constants. -/

/-- Curve membership as a proposition. -/
def OnCurve (P : BjjPoint) : Prop :=
  aC * (P.x * P.x) + P.y * P.y = 1 + dC * (P.x * P.x) * (P.y * P.y)

instance (P : BjjPoint) : Decidable (OnCurve P) := by
  unfold OnCurve; infer_instance

theorem is_on_curve_iff (P : BjjPoint) :
    P.is_on_curve = true ↔ OnCurve P := by
  unfold BjjPoint.is_on_curve OnCurve
  exact beq_iff_eq

theorem identity_on_curve : OnCurve BjjPoint.identity := by decide

theorem generator_on_curve : OnCurve BjjPoint.generator := by decide

/-- d = 168696 is not a square in F_p (Euler's criterion, computed). -/
theorem dC_not_square : ¬ IsSquare dC := by
  intro hsq
  have hdne : dC ≠ 0 := by decide
  have heul := (ZMod.euler_criterion pBN hdne).mp hsq
  have hcast : dC = ((D_COEFF : ℕ) : Fq) := rfl
  rw [hcast, zmod_pow_natCast pBN D_COEFF (pBN / 2) (by unfold pBN; norm_num)]
    at heul
  have hval : powMod D_COEFF (pBN / 2) pBN = pBN - 1 := by decide
  rw [hval] at heul
  have hne : ((pBN - 1 : ℕ) : Fq) ≠ ((1 : ℕ) : Fq) := by
    refine zmod_natCast_ne pBN (pBN - 1) 1 ?_ ?_ ?_ <;>
      · have := pBN_big; omega
  rw [Nat.cast_one] at hne
  exact hne heul

/-- An explicit square root of a = 168700 in F_p. -/
def cRt : Fq :=
  (7214280148105020021932206872019688659210616427216992810330019057549499971851 : Fq)

theorem cRt_sq : cRt * cRt = aC := by decide

theorem aC_ne_zero : aC ≠ 0 := by decide

theorem cRt_ne_zero : cRt ≠ 0 := by decide


/-! ## Completeness of the twisted Edwards addition law: for a a square
and d a nonsquare, the denominators 1 ± d·x1·x2·y1·y2 never vanish on
curve points (Bernstein–Lange, adapted to the twisted form). -/

theorem edwards_denominators {F : Type} [Field F] (Dp X1 Y1 X2 Y2 eps : F)
    (h2 : (2 : F) ≠ 0) (hd : ¬ IsSquare Dp)
    (he1 : X1 ^ 2 + Y1 ^ 2 = 1 + Dp * X1 ^ 2 * Y1 ^ 2)
    (he2 : X2 ^ 2 + Y2 ^ 2 = 1 + Dp * X2 ^ 2 * Y2 ^ 2)
    (heps : eps = 1 ∨ eps = -1)
    (hprod : Dp * X1 * X2 * Y1 * Y2 = eps) : False := by
  have heps2 : eps ^ 2 = 1 := by rcases heps with h | h <;> rw [h] <;> ring
  have hepsne : eps ≠ 0 := by
    rcases heps with h | h <;> rw [h]
    · exact one_ne_zero
    · exact neg_ne_zero.mpr one_ne_zero
  have hne : Dp * X1 * X2 * Y1 * Y2 ≠ 0 := by rw [hprod]; exact hepsne
  have hX1 : X1 ≠ 0 := fun h => hne (by rw [h]; ring)
  have hY1 : Y1 ≠ 0 := fun h => hne (by rw [h]; ring)
  have hX2 : X2 ≠ 0 := fun h => hne (by rw [h]; ring)
  have hY2 : Y2 ≠ 0 := fun h => hne (by rw [h]; ring)
  have key1 : (X1 + eps * Y1) ^ 2 = Dp * X1 ^ 2 * Y1 ^ 2 * (X2 + Y2) ^ 2 := by
    linear_combination he1 - Dp * X1 ^ 2 * Y1 ^ 2 * he2 + (Y1 ^ 2 - 1) * heps2 -
      (2 * X1 * Y1 + Dp * X1 * X2 * Y1 * Y2 + eps) * hprod
  have key2 : (X1 - eps * Y1) ^ 2 = Dp * X1 ^ 2 * Y1 ^ 2 * (X2 - Y2) ^ 2 := by
    linear_combination he1 - Dp * X1 ^ 2 * Y1 ^ 2 * he2 + (Y1 ^ 2 - 1) * heps2 +
      (2 * X1 * Y1 - Dp * X1 * X2 * Y1 * Y2 - eps) * hprod
  by_cases hsum : X2 + Y2 = 0
  · have hdiff : X2 - Y2 ≠ 0 := by
      intro h0
      apply hX2
      have h2X : (2 : F) * X2 = 0 := by linear_combination hsum + h0
      rcases mul_eq_zero.mp h2X with h | h
      · exact absurd h h2
      · exact h
    apply hd
    refine ⟨(X1 - eps * Y1) / (X1 * Y1 * (X2 - Y2)), ?_⟩
    have hden : X1 * Y1 * (X2 - Y2) ≠ 0 :=
      mul_ne_zero (mul_ne_zero hX1 hY1) hdiff
    field_simp
    linear_combination -key2
  · apply hd
    refine ⟨(X1 + eps * Y1) / (X1 * Y1 * (X2 + Y2)), ?_⟩
    have hden : X1 * Y1 * (X2 + Y2) ≠ 0 :=
      mul_ne_zero (mul_ne_zero hX1 hY1) hsum
    field_simp
    linear_combination -key1


/-- Generic form of the non-vanishing denominators statement, over
abstract curve constants (kept abstract so ring certificates never touch
large numerals). -/
theorem bjj_denominators_gen {F : Type} [Field F] (A D c x1 y1 x2 y2 : F)
    (hc : c * c = A) (hA : A ≠ 0) (h2 : (2 : F) ≠ 0) (hd : ¬ IsSquare D)
    (he1 : A * (x1 * x1) + y1 * y1 = 1 + D * (x1 * x1) * (y1 * y1))
    (he2 : A * (x2 * x2) + y2 * y2 = 1 + D * (x2 * x2) * (y2 * y2)) :
    1 + D * (x1 * x2) * (y1 * y2) ≠ 0 ∧
    1 - D * (x1 * x2) * (y1 * y2) ≠ 0 := by
  have hinv : A⁻¹ * A = 1 := inv_mul_cancel₀ hA
  have hd' : ¬ IsSquare (D * A⁻¹) := by
    rintro ⟨w, hw⟩
    apply hd
    refine ⟨w * c, ?_⟩
    calc D = D * A⁻¹ * A := by rw [mul_assoc, hinv, mul_one]
    _ = w * w * A := by rw [hw]
    _ = w * c * (w * c) := by rw [← hc]; ring
  have hE1 : (c * x1) ^ 2 + y1 ^ 2 =
      1 + (D * A⁻¹) * (c * x1) ^ 2 * y1 ^ 2 := by
    linear_combination he1 + (x1 ^ 2 - D * x1 ^ 2 * y1 ^ 2 * A⁻¹) * hc -
      D * x1 ^ 2 * y1 ^ 2 * hinv
  have hE2 : (c * x2) ^ 2 + y2 ^ 2 =
      1 + (D * A⁻¹) * (c * x2) ^ 2 * y2 ^ 2 := by
    linear_combination he2 + (x2 ^ 2 - D * x2 ^ 2 * y2 ^ 2 * A⁻¹) * hc -
      D * x2 ^ 2 * y2 ^ 2 * hinv
  constructor
  · intro h0
    refine edwards_denominators (D * A⁻¹) (c * x1) y1 (c * x2) y2 (-1)
      h2 hd' hE1 hE2 (Or.inr rfl) ?_
    linear_combination h0 + D * x1 * x2 * y1 * y2 * A⁻¹ * hc +
      D * x1 * x2 * y1 * y2 * hinv
  · intro h0
    refine edwards_denominators (D * A⁻¹) (c * x1) y1 (c * x2) y2 1
      h2 hd' hE1 hE2 (Or.inl rfl) ?_
    linear_combination -h0 + D * x1 * x2 * y1 * y2 * A⁻¹ * hc +
      D * x1 * x2 * y1 * y2 * hinv

/-- The denominators of the addition law never vanish on curve points. -/
theorem bjj_denominators {P Q : BjjPoint} (hP : OnCurve P) (hQ : OnCurve Q) :
    1 + dC * (P.x * Q.x) * (P.y * Q.y) ≠ 0 ∧
    1 - dC * (P.x * Q.x) * (P.y * Q.y) ≠ 0 := by
  have h2 : (2 : Fq) ≠ 0 := by decide
  exact bjj_denominators_gen aC dC cRt P.x P.y Q.x Q.y cRt_sq aC_ne_zero h2
    dC_not_square hP hQ


/-! ## Closure: the sum of two curve points lies on the curve. -/

theorem padd_x (P Q : BjjPoint) : (P.add Q).x =
    (P.x * Q.y + P.y * Q.x) / (1 + dC * (P.x * Q.x) * (P.y * Q.y)) := by
  show (P.x * Q.y + P.y * Q.x) * finv (1 + dC * (P.x * Q.x) * (P.y * Q.y)) = _
  rw [finv_eq, div_eq_mul_inv]

theorem padd_y (P Q : BjjPoint) : (P.add Q).y =
    (P.y * Q.y - aC * (P.x * Q.x)) / (1 - dC * (P.x * Q.x) * (P.y * Q.y)) := by
  show (P.y * Q.y - aC * (P.x * Q.x)) * finv (1 - dC * (P.x * Q.x) * (P.y * Q.y)) = _
  rw [finv_eq, div_eq_mul_inv]

theorem edwards_closure {F : Type} [Field F] (A D x1 y1 x2 y2 : F)
    (he1 : A * (x1 * x1) + y1 * y1 = 1 + D * (x1 * x1) * (y1 * y1))
    (he2 : A * (x2 * x2) + y2 * y2 = 1 + D * (x2 * x2) * (y2 * y2))
    (hp : 1 + D * (x1 * x2) * (y1 * y2) ≠ 0)
    (hm : 1 - D * (x1 * x2) * (y1 * y2) ≠ 0) :
    A * (((x1 * y2 + y1 * x2) / (1 + D * (x1 * x2) * (y1 * y2))) *
         ((x1 * y2 + y1 * x2) / (1 + D * (x1 * x2) * (y1 * y2)))) +
      ((y1 * y2 - A * (x1 * x2)) / (1 - D * (x1 * x2) * (y1 * y2))) *
      ((y1 * y2 - A * (x1 * x2)) / (1 - D * (x1 * x2) * (y1 * y2))) =
    1 + D * (((x1 * y2 + y1 * x2) / (1 + D * (x1 * x2) * (y1 * y2))) *
             ((x1 * y2 + y1 * x2) / (1 + D * (x1 * x2) * (y1 * y2)))) *
          (((y1 * y2 - A * (x1 * x2)) / (1 - D * (x1 * x2) * (y1 * y2))) *
           ((y1 * y2 - A * (x1 * x2)) / (1 - D * (x1 * x2) * (y1 * y2)))) := by
  field_simp
  linear_combination (x1^2*y1^2*x2^4*y2^4*D^3 + x1^2*x2^4*y2^4*A*D^2 - x1^2*x2^4*y2^2*A^2*D - x1^2*x2^2*y2^4*A*D + y1^2*x2^4*y2^4*D^2 - y1^2*x2^4*y2^2*A*D - y1^2*x2^2*y2^4*D + 2*x2^4*y2^4*A*D - x2^4*y2^4*D^2 - 2*x2^4*y2^2*A^2 + x2^4*A^2 - 2*x2^2*y2^4*A + 4*x2^2*y2^2*A - 2*x2^2*y2^2*D + y2^4) * he1 + (x1^4*x2^2*y2^2*A^2*D + 2*x1^2*x2^2*y2^2*A^2 - 2*x1^2*x2^2*y2^2*A*D - x1^2*x2^2*A^2 - x1^2*y2^2*A + y1^4*x2^2*y2^2*D + 2*y1^2*x2^2*y2^2*A - 2*y1^2*x2^2*y2^2*D - y1^2*x2^2*A - y1^2*y2^2 - 2*x2^2*y2^2*A + x2^2*y2^2*D + x2^2*A + y2^2 + 1) * he2


theorem OnCurve.add {P Q : BjjPoint} (hP : OnCurve P) (hQ : OnCurve Q) :
    OnCurve (P.add Q) := by
  obtain ⟨hp, hm⟩ := bjj_denominators hP hQ
  show aC * ((P.add Q).x * (P.add Q).x) + (P.add Q).y * (P.add Q).y =
    1 + dC * ((P.add Q).x * (P.add Q).x) * ((P.add Q).y * (P.add Q).y)
  rw [padd_x, padd_y]
  exact edwards_closure aC dC P.x P.y Q.x Q.y hP hQ hp hm

theorem OnCurve.neg {P : BjjPoint} (hP : OnCurve P) :
    OnCurve ⟨-P.x, P.y⟩ := by
  have hPe : aC * (P.x * P.x) + P.y * P.y =
      1 + dC * (P.x * P.x) * (P.y * P.y) := hP
  show aC * (-P.x * -P.x) + P.y * P.y = 1 + dC * (-P.x * -P.x) * (P.y * P.y)
  linear_combination hPe

theorem pt_eq {P Q : BjjPoint} (hx : P.x = Q.x) (hy : P.y = Q.y) : P = Q := by
  cases P; cases Q
  simp only at hx hy
  rw [hx, hy]

theorem padd_comm (P Q : BjjPoint) : P.add Q = Q.add P := by
  apply pt_eq
  · rw [padd_x P Q, padd_x Q P]
    have hd : 1 + dC * (Q.x * P.x) * (Q.y * P.y) =
        1 + dC * (P.x * Q.x) * (P.y * Q.y) := by ring
    have hn : Q.x * P.y + Q.y * P.x = P.x * Q.y + P.y * Q.x := by ring
    rw [hd, hn]
  · rw [padd_y P Q, padd_y Q P]
    have hd : 1 - dC * (Q.x * P.x) * (Q.y * P.y) =
        1 - dC * (P.x * Q.x) * (P.y * Q.y) := by ring
    have hn : Q.y * P.y - aC * (Q.x * P.x) = P.y * Q.y - aC * (P.x * Q.x) := by
      ring
    rw [hd, hn]

theorem padd_identity_right (P : BjjPoint) : P.add BjjPoint.identity = P := by
  apply pt_eq
  · rw [padd_x]
    simp [BjjPoint.identity]
  · rw [padd_y]
    simp [BjjPoint.identity]

theorem padd_identity_left (P : BjjPoint) : BjjPoint.identity.add P = P := by
  rw [padd_comm]
  exact padd_identity_right P

theorem padd_neg {P : BjjPoint} (hP : OnCurve P) :
    BjjPoint.add ⟨-P.x, P.y⟩ P = BjjPoint.identity := by
  have hPe : aC * (P.x * P.x) + P.y * P.y =
      1 + dC * (P.x * P.x) * (P.y * P.y) := hP
  have hdenom := (bjj_denominators (OnCurve.neg hP) hP).2
  apply pt_eq
  · rw [padd_x]
    show _ = (0 : Fq)
    apply div_eq_zero_iff.mpr
    left
    ring
  · rw [padd_y]
    show _ = (1 : Fq)
    rw [div_eq_one_iff_eq]
    · ring_nf
      linear_combination hPe
    · simpa using hdenom


/-! ## Associativity of the addition law: polynomial core identities,
with cofactor certificates computed offline by reduction modulo the three
curve equations. -/

theorem edwards_assoc_x_core {F : Type} [Field F] (A D x1 y1 x2 y2 x3 y3 : F)
    (he1 : A * (x1 * x1) + y1 * y1 = 1 + D * (x1 * x1) * (y1 * y1))
    (he2 : A * (x2 * x2) + y2 * y2 = 1 + D * (x2 * x2) * (y2 * y2))
    (he3 : A * (x3 * x3) + y3 * y3 = 1 + D * (x3 * x3) * (y3 * y3)) :
    ((x1 * y2 + y1 * x2) * y3 * (1 - D * (x1 * x2) * (y1 * y2)) + (y1 * y2 - A * (x1 * x2)) * x3 * (1 + D * (x1 * x2) * (y1 * y2))) *
    ((1 + D * (x2 * x3) * (y2 * y3)) * (1 - D * (x2 * x3) * (y2 * y3)) + D * (x1 * y1) * ((x2 * y3 + y2 * x3) * (y2 * y3 - A * (x2 * x3)))) =
    (x1 * (y2 * y3 - A * (x2 * x3)) * (1 + D * (x2 * x3) * (y2 * y3)) + y1 * (x2 * y3 + y2 * x3) * (1 - D * (x2 * x3) * (y2 * y3))) *
    ((1 + D * (x1 * x2) * (y1 * y2)) * (1 - D * (x1 * x2) * (y1 * y2)) + D * ((x1 * y2 + y1 * x2) * (y1 * y2 - A * (x1 * x2))) * (x3 * y3)) := by
  linear_combination (x1 * x2^4 * y2^3 * x3^2 * y3 * A * D^2 - 1 * x1 * x2^4 * y2 * x3^2 * y3 * A^2 * D - 1 * x1 * x2^3 * y2^4 * x3 * y3^2 * D^2 - 1 * x1 * x2^3 * y2^2 * x3^3 * A^2 * D + x1 * x2^3 * y2^2 * x3 * A * D + x1 * x2^2 * y2^3 * y3^3 * D - 1 * x1 * x2^2 * y2^3 * y3 * D + x1 * x2 * y2^4 * x3 * y3^2 * D + y1 * x2^4 * y2^3 * x3 * y3^2 * D^2 - 1 * y1 * x2^4 * y2 * x3 * y3^2 * A * D + y1 * x2^3 * y2^4 * x3^2 * y3 * D^2 + y1 * x2^3 * y2^2 * y3^3 * D - 1 * y1 * x2^3 * y2^2 * y3 * D + y1 * x2^2 * y2^3 * x3^3 * A * D - 1 * y1 * x2^2 * y2^3 * x3 * D - 1 * y1 * x2 * y2^4 * x3^2 * y3 * D) * he1 +
    (x1^3 * x2^2 * y2 * x3^2 * y3 * A^2 * D - 1 * x1^3 * x2 * y2^2 * x3 * y3^2 * A * D + x1^3 * x2 * x3^3 * y3^2 * A^2 * D - 1 * x1^3 * x2 * x3^3 * A^3 - 1 * x1^3 * x2 * x3 * y3^2 * A^2 + x1^3 * x2 * x3 * A^2 - 1 * x1^3 * y2 * x3^2 * y3^3 * A * D + x1^3 * y2 * x3^2 * y3 * A^2 + x1^3 * y2 * y3^3 * A - 1 * x1^3 * y2 * y3 * A - 1 * x1^2 * y1 * x2^2 * y2 * x3^3 * y3^2 * A * D^2 + x1^2 * y1 * x2^2 * y2 * x3 * y3^2 * A * D - 1 * x1^2 * y1 * x2 * y2^2 * x3^2 * y3^3 * D^2 + x1^2 * y1 * x2 * y2^2 * x3^2 * y3 * A * D - 1 * x1^2 * y1 * x2 * x3^2 * y3^3 * A * D + x1^2 * y1 * x2 * x3^2 * y3 * A^2 + x1^2 * y1 * x2 * y3^3 * A - 1 * x1^2 * y1 * x2 * y3 * A - 1 * x1^2 * y1 * y2 * x3^3 * y3^2 * A * D + x1^2 * y1 * y2 * x3^3 * A^2 + x1^2 * y1 * y2 * x3 * y3^2 * A - 1 * x1^2 * y1 * y2 * x3 * A - 1 * x1 * y1^2 * x2^2 * y2 * x3^2 * y3^3 * D^2 + x1 * y1^2 * x2^2 * y2 * x3^2 * y3 * A * D + x1 * y1^2 * x2 * y2^2 * x3^3 * y3^2 * D^2 - 1 * x1 * y1^2 * x2 * y2^2 * x3 * y3^2 * D + x1 * y1^2 * x2 * x3^3 * y3^2 * A * D - 1 * x1 * y1^2 * x2 * x3^3 * A^2 - 1 * x1 * y1^2 * x2 * x3 * y3^2 * A + x1 * y1^2 * x2 * x3 * A - 1 * x1 * y1^2 * y2 * x3^2 * y3^3 * D + x1 * y1^2 * y2 * x3^2 * y3 * A + x1 * y1^2 * y2 * y3^3 - 1 * x1 * y1^2 * y2 * y3 - 1 * x1 * x2^2 * y2 * x3^2 * y3 * A * D + x1 * x2 * y2^2 * x3 * y3^2 * D - 1 * x1 * x2 * x3^3 * y3^2 * A * D + x1 * x2 * x3^3 * A^2 + x1 * x2 * x3 * y3^2 * A - 1 * x1 * x2 * x3 * A + x1 * y2 * x3^2 * y3^3 * D - 1 * x1 * y2 * x3^2 * y3 * A - 1 * x1 * y2 * y3^3 + x1 * y2 * y3 + y1^3 * x2^2 * y2 * x3 * y3^2 * D + y1^3 * x2 * y2^2 * x3^2 * y3 * D - 1 * y1^3 * x2 * x3^2 * y3^3 * D + y1^3 * x2 * x3^2 * y3 * A + y1^3 * x2 * y3^3 - 1 * y1^3 * x2 * y3 - 1 * y1^3 * y2 * x3^3 * y3^2 * D + y1^3 * y2 * x3^3 * A + y1^3 * y2 * x3 * y3^2 - 1 * y1^3 * y2 * x3 - 1 * y1 * x2^2 * y2 * x3 * y3^2 * D - 1 * y1 * x2 * y2^2 * x3^2 * y3 * D + y1 * x2 * x3^2 * y3^3 * D - 1 * y1 * x2 * x3^2 * y3 * A - 1 * y1 * x2 * y3^3 + y1 * x2 * y3 + y1 * y2 * x3^3 * y3^2 * D - 1 * y1 * y2 * x3^3 * A - 1 * y1 * y2 * x3 * y3^2 + y1 * y2 * x3) * he2 +
    (x1^3 * x2^3 * x3 * A^3 - 1 * x1^3 * x2^2 * y2 * y3 * A^2 + x1^3 * x2 * y2^2 * x3 * A^2 - 1 * x1^3 * x2 * x3 * A^2 - 1 * x1^3 * y2^3 * y3 * A + x1^3 * y2 * y3 * A - 1 * x1^2 * y1 * x2^3 * y3 * A^2 - 1 * x1^2 * y1 * x2^2 * y2 * x3 * A^2 + x1^2 * y1 * x2^2 * y2 * x3 * A * D - 1 * x1^2 * y1 * x2 * y2^2 * y3 * A + x1^2 * y1 * x2 * y2^2 * y3 * D + x1^2 * y1 * x2 * y3 * A - 1 * x1^2 * y1 * y2^3 * x3 * A + x1^2 * y1 * y2 * x3 * A + x1 * y1^2 * x2^3 * x3 * A^2 - 1 * x1 * y1^2 * x2^2 * y2 * y3 * A + x1 * y1^2 * x2^2 * y2 * y3 * D + x1 * y1^2 * x2 * y2^2 * x3 * A - 1 * x1 * y1^2 * x2 * y2^2 * x3 * D - 1 * x1 * y1^2 * x2 * x3 * A - 1 * x1 * y1^2 * y2^3 * y3 + x1 * y1^2 * y2 * y3 - 1 * x1 * x2^3 * x3 * A^2 + x1 * x2^2 * y2 * y3 * A - 1 * x1 * x2 * y2^2 * x3 * A + x1 * x2 * x3 * A + x1 * y2^3 * y3 - 1 * x1 * y2 * y3 - 1 * y1^3 * x2^3 * y3 * A - 1 * y1^3 * x2^2 * y2 * x3 * A - 1 * y1^3 * x2 * y2^2 * y3 + y1^3 * x2 * y3 - 1 * y1^3 * y2^3 * x3 + y1^3 * y2 * x3 + y1 * x2^3 * y3 * A + y1 * x2^2 * y2 * x3 * A + y1 * x2 * y2^2 * y3 - 1 * y1 * x2 * y3 + y1 * y2^3 * x3 - 1 * y1 * y2 * x3) * he3


theorem edwards_assoc_y_core {F : Type} [Field F] (A D x1 y1 x2 y2 x3 y3 : F)
    (he1 : A * (x1 * x1) + y1 * y1 = 1 + D * (x1 * x1) * (y1 * y1))
    (he2 : A * (x2 * x2) + y2 * y2 = 1 + D * (x2 * x2) * (y2 * y2))
    (he3 : A * (x3 * x3) + y3 * y3 = 1 + D * (x3 * x3) * (y3 * y3)) :
    ((y1 * y2 - A * (x1 * x2)) * y3 * (1 + D * (x1 * x2) * (y1 * y2)) - A * ((x1 * y2 + y1 * x2) * x3) * (1 - D * (x1 * x2) * (y1 * y2))) *
    ((1 + D * (x2 * x3) * (y2 * y3)) * (1 - D * (x2 * x3) * (y2 * y3)) - D * (x1 * y1) * ((x2 * y3 + y2 * x3) * (y2 * y3 - A * (x2 * x3)))) =
    (y1 * (y2 * y3 - A * (x2 * x3)) * (1 + D * (x2 * x3) * (y2 * y3)) - A * (x1 * (x2 * y3 + y2 * x3)) * (1 - D * (x2 * x3) * (y2 * y3))) *
    ((1 + D * (x1 * x2) * (y1 * y2)) * (1 - D * (x1 * x2) * (y1 * y2)) - D * ((x1 * y2 + y1 * x2) * (y1 * y2 - A * (x1 * x2))) * (x3 * y3)) := by
  linear_combination (-1 * x1 * x2^4 * y2^3 * x3 * y3^2 * A * D^2 + x1 * x2^4 * y2 * x3 * y3^2 * A^2 * D - 1 * x1 * x2^3 * y2^4 * x3^2 * y3 * A * D^2 - 1 * x1 * x2^3 * y2^2 * y3^3 * A * D + x1 * x2^3 * y2^2 * y3 * A * D - 1 * x1 * x2^2 * y2^3 * x3^3 * A^2 * D + x1 * x2^2 * y2^3 * x3 * A * D + x1 * x2 * y2^4 * x3^2 * y3 * A * D + y1 * x2^4 * y2^3 * x3^2 * y3 * A * D^2 - 1 * y1 * x2^4 * y2 * x3^2 * y3 * A^2 * D - 1 * y1 * x2^3 * y2^4 * x3 * y3^2 * D^2 - 1 * y1 * x2^3 * y2^2 * x3^3 * A^2 * D + y1 * x2^3 * y2^2 * x3 * A * D + y1 * x2^2 * y2^3 * y3^3 * D - 1 * y1 * x2^2 * y2^3 * y3 * D + y1 * x2 * y2^4 * x3 * y3^2 * D) * he1 +
    (-1 * x1^3 * x2^2 * y2 * x3 * y3^2 * A^2 * D - 1 * x1^3 * x2 * y2^2 * x3^2 * y3 * A^2 * D + x1^3 * x2 * x3^2 * y3^3 * A^2 * D - 1 * x1^3 * x2 * x3^2 * y3 * A^3 - 1 * x1^3 * x2 * y3^3 * A^2 + x1^3 * x2 * y3 * A^2 + x1^3 * y2 * x3^3 * y3^2 * A^2 * D - 1 * x1^3 * y2 * x3^3 * A^3 - 1 * x1^3 * y2 * x3 * y3^2 * A^2 + x1^3 * y2 * x3 * A^2 - 1 * x1^2 * y1 * x2^2 * y2 * x3^2 * y3^3 * A * D^2 + x1^2 * y1 * x2^2 * y2 * x3^2 * y3 * A^2 * D + x1^2 * y1 * x2 * y2^2 * x3^3 * y3^2 * A * D^2 - 1 * x1^2 * y1 * x2 * y2^2 * x3 * y3^2 * A * D + x1^2 * y1 * x2 * x3^3 * y3^2 * A^2 * D - 1 * x1^2 * y1 * x2 * x3^3 * A^3 - 1 * x1^2 * y1 * x2 * x3 * y3^2 * A^2 + x1^2 * y1 * x2 * x3 * A^2 - 1 * x1^2 * y1 * y2 * x3^2 * y3^3 * A * D + x1^2 * y1 * y2 * x3^2 * y3 * A^2 + x1^2 * y1 * y2 * y3^3 * A - 1 * x1^2 * y1 * y2 * y3 * A + x1 * y1^2 * x2^2 * y2 * x3^3 * y3^2 * A * D^2 - 1 * x1 * y1^2 * x2^2 * y2 * x3 * y3^2 * A * D + x1 * y1^2 * x2 * y2^2 * x3^2 * y3^3 * D^2 - 1 * x1 * y1^2 * x2 * y2^2 * x3^2 * y3 * A * D + x1 * y1^2 * x2 * x3^2 * y3^3 * A * D - 1 * x1 * y1^2 * x2 * x3^2 * y3 * A^2 - 1 * x1 * y1^2 * x2 * y3^3 * A + x1 * y1^2 * x2 * y3 * A + x1 * y1^2 * y2 * x3^3 * y3^2 * A * D - 1 * x1 * y1^2 * y2 * x3^3 * A^2 - 1 * x1 * y1^2 * y2 * x3 * y3^2 * A + x1 * y1^2 * y2 * x3 * A + x1 * x2^2 * y2 * x3 * y3^2 * A * D + x1 * x2 * y2^2 * x3^2 * y3 * A * D - 1 * x1 * x2 * x3^2 * y3^3 * A * D + x1 * x2 * x3^2 * y3 * A^2 + x1 * x2 * y3^3 * A - 1 * x1 * x2 * y3 * A - 1 * x1 * y2 * x3^3 * y3^2 * A * D + x1 * y2 * x3^3 * A^2 + x1 * y2 * x3 * y3^2 * A - 1 * x1 * y2 * x3 * A + y1^3 * x2^2 * y2 * x3^2 * y3 * A * D - 1 * y1^3 * x2 * y2^2 * x3 * y3^2 * D + y1^3 * x2 * x3^3 * y3^2 * A * D - 1 * y1^3 * x2 * x3^3 * A^2 - 1 * y1^3 * x2 * x3 * y3^2 * A + y1^3 * x2 * x3 * A - 1 * y1^3 * y2 * x3^2 * y3^3 * D + y1^3 * y2 * x3^2 * y3 * A + y1^3 * y2 * y3^3 - 1 * y1^3 * y2 * y3 - 1 * y1 * x2^2 * y2 * x3^2 * y3 * A * D + y1 * x2 * y2^2 * x3 * y3^2 * D - 1 * y1 * x2 * x3^3 * y3^2 * A * D + y1 * x2 * x3^3 * A^2 + y1 * x2 * x3 * y3^2 * A - 1 * y1 * x2 * x3 * A + y1 * y2 * x3^2 * y3^3 * D - 1 * y1 * y2 * x3^2 * y3 * A - 1 * y1 * y2 * y3^3 + y1 * y2 * y3) * he2 +
    (x1^3 * x2^3 * y3 * A^3 + x1^3 * x2^2 * y2 * x3 * A^3 + x1^3 * x2 * y2^2 * y3 * A^2 - 1 * x1^3 * x2 * y3 * A^2 + x1^3 * y2^3 * x3 * A^2 - 1 * x1^3 * y2 * x3 * A^2 + x1^2 * y1 * x2^3 * x3 * A^3 - 1 * x1^2 * y1 * x2^2 * y2 * y3 * A^2 + x1^2 * y1 * x2^2 * y2 * y3 * A * D + x1^2 * y1 * x2 * y2^2 * x3 * A^2 - 1 * x1^2 * y1 * x2 * y2^2 * x3 * A * D - 1 * x1^2 * y1 * x2 * x3 * A^2 - 1 * x1^2 * y1 * y2^3 * y3 * A + x1^2 * y1 * y2 * y3 * A + x1 * y1^2 * x2^3 * y3 * A^2 + x1 * y1^2 * x2^2 * y2 * x3 * A^2 - 1 * x1 * y1^2 * x2^2 * y2 * x3 * A * D + x1 * y1^2 * x2 * y2^2 * y3 * A - 1 * x1 * y1^2 * x2 * y2^2 * y3 * D - 1 * x1 * y1^2 * x2 * y3 * A + x1 * y1^2 * y2^3 * x3 * A - 1 * x1 * y1^2 * y2 * x3 * A - 1 * x1 * x2^3 * y3 * A^2 - 1 * x1 * x2^2 * y2 * x3 * A^2 - 1 * x1 * x2 * y2^2 * y3 * A + x1 * x2 * y3 * A - 1 * x1 * y2^3 * x3 * A + x1 * y2 * x3 * A + y1^3 * x2^3 * x3 * A^2 - 1 * y1^3 * x2^2 * y2 * y3 * A + y1^3 * x2 * y2^2 * x3 * A - 1 * y1^3 * x2 * x3 * A - 1 * y1^3 * y2^3 * y3 + y1^3 * y2 * y3 - 1 * y1 * x2^3 * x3 * A^2 + y1 * x2^2 * y2 * y3 * A - 1 * y1 * x2 * y2^2 * x3 * A + y1 * x2 * x3 * A + y1 * y2^3 * y3 - 1 * y1 * y2 * y3) * he3

theorem div_div_same {F : Type} [Field F] (n d c : F) (hc : c ≠ 0) :
    n / c / (d / c) = n / d := by
  rw [div_div_eq_mul_div, div_mul_cancel₀ n hc]

theorem frac_eq {F : Type} [Field F] {a b c d : F} (hb : b ≠ 0) (hd : d ≠ 0)
    (h : a * d = c * b) : a / b = c / d := by
  field_simp
  exact h

theorem edwards_assoc_x {F : Type} [Field F] (A D x1 y1 x2 y2 x3 y3 : F)
    (he1 : A * (x1 * x1) + y1 * y1 = 1 + D * (x1 * x1) * (y1 * y1))
    (he2 : A * (x2 * x2) + y2 * y2 = 1 + D * (x2 * x2) * (y2 * y2))
    (he3 : A * (x3 * x3) + y3 * y3 = 1 + D * (x3 * x3) * (y3 * y3))
    (hc12p : (1 + D * (x1 * x2) * (y1 * y2)) ≠ 0)
    (hc12m : (1 - D * (x1 * x2) * (y1 * y2)) ≠ 0)
    (hc23p : (1 + D * (x2 * x3) * (y2 * y3)) ≠ 0)
    (hc23m : (1 - D * (x2 * x3) * (y2 * y3)) ≠ 0)
    (hL : (1 + D * (((x1 * y2 + y1 * x2) / (1 + D * (x1 * x2) * (y1 * y2))) * x3) * (((y1 * y2 - A * (x1 * x2)) / (1 - D * (x1 * x2) * (y1 * y2))) * y3)) ≠ 0)
    (hR : (1 + D * (x1 * ((x2 * y3 + y2 * x3) / (1 + D * (x2 * x3) * (y2 * y3)))) * (y1 * ((y2 * y3 - A * (x2 * x3)) / (1 - D * (x2 * x3) * (y2 * y3))))) ≠ 0) :
    (((x1 * y2 + y1 * x2) / (1 + D * (x1 * x2) * (y1 * y2))) * y3 + ((y1 * y2 - A * (x1 * x2)) / (1 - D * (x1 * x2) * (y1 * y2))) * x3) / (1 + D * (((x1 * y2 + y1 * x2) / (1 + D * (x1 * x2) * (y1 * y2))) * x3) * (((y1 * y2 - A * (x1 * x2)) / (1 - D * (x1 * x2) * (y1 * y2))) * y3)) = (x1 * ((y2 * y3 - A * (x2 * x3)) / (1 - D * (x2 * x3) * (y2 * y3))) + y1 * ((x2 * y3 + y2 * x3) / (1 + D * (x2 * x3) * (y2 * y3)))) / (1 + D * (x1 * ((x2 * y3 + y2 * x3) / (1 + D * (x2 * x3) * (y2 * y3)))) * (y1 * ((y2 * y3 - A * (x2 * x3)) / (1 - D * (x2 * x3) * (y2 * y3))))) := by
  have hcc12 : ((1 + D * (x1 * x2) * (y1 * y2)) * (1 - D * (x1 * x2) * (y1 * y2))) ≠ 0 := mul_ne_zero hc12p hc12m
  have hcc23 : ((1 + D * (x2 * x3) * (y2 * y3)) * (1 - D * (x2 * x3) * (y2 * y3))) ≠ 0 := mul_ne_zero hc23p hc23m
  have hnumL : (((x1 * y2 + y1 * x2) / (1 + D * (x1 * x2) * (y1 * y2))) * y3 + ((y1 * y2 - A * (x1 * x2)) / (1 - D * (x1 * x2) * (y1 * y2))) * x3) = ((x1 * y2 + y1 * x2) * y3 * (1 - D * (x1 * x2) * (y1 * y2)) + (y1 * y2 - A * (x1 * x2)) * x3 * (1 + D * (x1 * x2) * (y1 * y2))) / ((1 + D * (x1 * x2) * (y1 * y2)) * (1 - D * (x1 * x2) * (y1 * y2))) := by
    field_simp
    all_goals first | ring1 | (left; first | trivial | ring1)
  have hdenL : (1 + D * (((x1 * y2 + y1 * x2) / (1 + D * (x1 * x2) * (y1 * y2))) * x3) * (((y1 * y2 - A * (x1 * x2)) / (1 - D * (x1 * x2) * (y1 * y2))) * y3)) = ((1 + D * (x1 * x2) * (y1 * y2)) * (1 - D * (x1 * x2) * (y1 * y2)) + D * ((x1 * y2 + y1 * x2) * (y1 * y2 - A * (x1 * x2))) * (x3 * y3)) / ((1 + D * (x1 * x2) * (y1 * y2)) * (1 - D * (x1 * x2) * (y1 * y2))) := by
    field_simp
    all_goals first | ring1 | (left; first | trivial | ring1)
  have hnumR : (x1 * ((y2 * y3 - A * (x2 * x3)) / (1 - D * (x2 * x3) * (y2 * y3))) + y1 * ((x2 * y3 + y2 * x3) / (1 + D * (x2 * x3) * (y2 * y3)))) = (x1 * (y2 * y3 - A * (x2 * x3)) * (1 + D * (x2 * x3) * (y2 * y3)) + y1 * (x2 * y3 + y2 * x3) * (1 - D * (x2 * x3) * (y2 * y3))) / ((1 + D * (x2 * x3) * (y2 * y3)) * (1 - D * (x2 * x3) * (y2 * y3))) := by
    field_simp
    all_goals first | ring1 | (left; first | trivial | ring1)
  have hdenR : (1 + D * (x1 * ((x2 * y3 + y2 * x3) / (1 + D * (x2 * x3) * (y2 * y3)))) * (y1 * ((y2 * y3 - A * (x2 * x3)) / (1 - D * (x2 * x3) * (y2 * y3))))) = ((1 + D * (x2 * x3) * (y2 * y3)) * (1 - D * (x2 * x3) * (y2 * y3)) + D * (x1 * y1) * ((x2 * y3 + y2 * x3) * (y2 * y3 - A * (x2 * x3)))) / ((1 + D * (x2 * x3) * (y2 * y3)) * (1 - D * (x2 * x3) * (y2 * y3))) := by
    field_simp
    all_goals first | ring1 | (left; first | trivial | ring1)
  have hDL : ((1 + D * (x1 * x2) * (y1 * y2)) * (1 - D * (x1 * x2) * (y1 * y2)) + D * ((x1 * y2 + y1 * x2) * (y1 * y2 - A * (x1 * x2))) * (x3 * y3)) ≠ 0 := by
    intro h0
    apply hL
    rw [hdenL, h0, zero_div]
  have hDR : ((1 + D * (x2 * x3) * (y2 * y3)) * (1 - D * (x2 * x3) * (y2 * y3)) + D * (x1 * y1) * ((x2 * y3 + y2 * x3) * (y2 * y3 - A * (x2 * x3)))) ≠ 0 := by
    intro h0
    apply hR
    rw [hdenR, h0, zero_div]
  calc (((x1 * y2 + y1 * x2) / (1 + D * (x1 * x2) * (y1 * y2))) * y3 + ((y1 * y2 - A * (x1 * x2)) / (1 - D * (x1 * x2) * (y1 * y2))) * x3) / (1 + D * (((x1 * y2 + y1 * x2) / (1 + D * (x1 * x2) * (y1 * y2))) * x3) * (((y1 * y2 - A * (x1 * x2)) / (1 - D * (x1 * x2) * (y1 * y2))) * y3))
      = (((x1 * y2 + y1 * x2) * y3 * (1 - D * (x1 * x2) * (y1 * y2)) + (y1 * y2 - A * (x1 * x2)) * x3 * (1 + D * (x1 * x2) * (y1 * y2))) / ((1 + D * (x1 * x2) * (y1 * y2)) * (1 - D * (x1 * x2) * (y1 * y2)))) / (((1 + D * (x1 * x2) * (y1 * y2)) * (1 - D * (x1 * x2) * (y1 * y2)) + D * ((x1 * y2 + y1 * x2) * (y1 * y2 - A * (x1 * x2))) * (x3 * y3)) / ((1 + D * (x1 * x2) * (y1 * y2)) * (1 - D * (x1 * x2) * (y1 * y2)))) := by rw [hnumL, hdenL]
    _ = ((x1 * y2 + y1 * x2) * y3 * (1 - D * (x1 * x2) * (y1 * y2)) + (y1 * y2 - A * (x1 * x2)) * x3 * (1 + D * (x1 * x2) * (y1 * y2))) / ((1 + D * (x1 * x2) * (y1 * y2)) * (1 - D * (x1 * x2) * (y1 * y2)) + D * ((x1 * y2 + y1 * x2) * (y1 * y2 - A * (x1 * x2))) * (x3 * y3)) := div_div_same _ _ _ hcc12
    _ = (x1 * (y2 * y3 - A * (x2 * x3)) * (1 + D * (x2 * x3) * (y2 * y3)) + y1 * (x2 * y3 + y2 * x3) * (1 - D * (x2 * x3) * (y2 * y3))) / ((1 + D * (x2 * x3) * (y2 * y3)) * (1 - D * (x2 * x3) * (y2 * y3)) + D * (x1 * y1) * ((x2 * y3 + y2 * x3) * (y2 * y3 - A * (x2 * x3)))) := frac_eq hDL hDR
        (edwards_assoc_x_core A D x1 y1 x2 y2 x3 y3 he1 he2 he3)
    _ = ((x1 * (y2 * y3 - A * (x2 * x3)) * (1 + D * (x2 * x3) * (y2 * y3)) + y1 * (x2 * y3 + y2 * x3) * (1 - D * (x2 * x3) * (y2 * y3))) / ((1 + D * (x2 * x3) * (y2 * y3)) * (1 - D * (x2 * x3) * (y2 * y3)))) / (((1 + D * (x2 * x3) * (y2 * y3)) * (1 - D * (x2 * x3) * (y2 * y3)) + D * (x1 * y1) * ((x2 * y3 + y2 * x3) * (y2 * y3 - A * (x2 * x3)))) / ((1 + D * (x2 * x3) * (y2 * y3)) * (1 - D * (x2 * x3) * (y2 * y3)))) := (div_div_same _ _ _ hcc23).symm
    _ = (x1 * ((y2 * y3 - A * (x2 * x3)) / (1 - D * (x2 * x3) * (y2 * y3))) + y1 * ((x2 * y3 + y2 * x3) / (1 + D * (x2 * x3) * (y2 * y3)))) / (1 + D * (x1 * ((x2 * y3 + y2 * x3) / (1 + D * (x2 * x3) * (y2 * y3)))) * (y1 * ((y2 * y3 - A * (x2 * x3)) / (1 - D * (x2 * x3) * (y2 * y3))))) := by rw [← hnumR, ← hdenR]

theorem edwards_assoc_y {F : Type} [Field F] (A D x1 y1 x2 y2 x3 y3 : F)
    (he1 : A * (x1 * x1) + y1 * y1 = 1 + D * (x1 * x1) * (y1 * y1))
    (he2 : A * (x2 * x2) + y2 * y2 = 1 + D * (x2 * x2) * (y2 * y2))
    (he3 : A * (x3 * x3) + y3 * y3 = 1 + D * (x3 * x3) * (y3 * y3))
    (hc12p : (1 + D * (x1 * x2) * (y1 * y2)) ≠ 0)
    (hc12m : (1 - D * (x1 * x2) * (y1 * y2)) ≠ 0)
    (hc23p : (1 + D * (x2 * x3) * (y2 * y3)) ≠ 0)
    (hc23m : (1 - D * (x2 * x3) * (y2 * y3)) ≠ 0)
    (hL : (1 - D * (((x1 * y2 + y1 * x2) / (1 + D * (x1 * x2) * (y1 * y2))) * x3) * (((y1 * y2 - A * (x1 * x2)) / (1 - D * (x1 * x2) * (y1 * y2))) * y3)) ≠ 0)
    (hR : (1 - D * (x1 * ((x2 * y3 + y2 * x3) / (1 + D * (x2 * x3) * (y2 * y3)))) * (y1 * ((y2 * y3 - A * (x2 * x3)) / (1 - D * (x2 * x3) * (y2 * y3))))) ≠ 0) :
    (((y1 * y2 - A * (x1 * x2)) / (1 - D * (x1 * x2) * (y1 * y2))) * y3 - A * (((x1 * y2 + y1 * x2) / (1 + D * (x1 * x2) * (y1 * y2))) * x3)) / (1 - D * (((x1 * y2 + y1 * x2) / (1 + D * (x1 * x2) * (y1 * y2))) * x3) * (((y1 * y2 - A * (x1 * x2)) / (1 - D * (x1 * x2) * (y1 * y2))) * y3)) = (y1 * ((y2 * y3 - A * (x2 * x3)) / (1 - D * (x2 * x3) * (y2 * y3))) - A * (x1 * ((x2 * y3 + y2 * x3) / (1 + D * (x2 * x3) * (y2 * y3))))) / (1 - D * (x1 * ((x2 * y3 + y2 * x3) / (1 + D * (x2 * x3) * (y2 * y3)))) * (y1 * ((y2 * y3 - A * (x2 * x3)) / (1 - D * (x2 * x3) * (y2 * y3))))) := by
  have hcc12 : ((1 + D * (x1 * x2) * (y1 * y2)) * (1 - D * (x1 * x2) * (y1 * y2))) ≠ 0 := mul_ne_zero hc12p hc12m
  have hcc23 : ((1 + D * (x2 * x3) * (y2 * y3)) * (1 - D * (x2 * x3) * (y2 * y3))) ≠ 0 := mul_ne_zero hc23p hc23m
  have hnumL : (((y1 * y2 - A * (x1 * x2)) / (1 - D * (x1 * x2) * (y1 * y2))) * y3 - A * (((x1 * y2 + y1 * x2) / (1 + D * (x1 * x2) * (y1 * y2))) * x3)) = ((y1 * y2 - A * (x1 * x2)) * y3 * (1 + D * (x1 * x2) * (y1 * y2)) - A * ((x1 * y2 + y1 * x2) * x3) * (1 - D * (x1 * x2) * (y1 * y2))) / ((1 + D * (x1 * x2) * (y1 * y2)) * (1 - D * (x1 * x2) * (y1 * y2))) := by
    field_simp
    all_goals first | ring1 | (left; first | trivial | ring1)
  have hdenL : (1 - D * (((x1 * y2 + y1 * x2) / (1 + D * (x1 * x2) * (y1 * y2))) * x3) * (((y1 * y2 - A * (x1 * x2)) / (1 - D * (x1 * x2) * (y1 * y2))) * y3)) = ((1 + D * (x1 * x2) * (y1 * y2)) * (1 - D * (x1 * x2) * (y1 * y2)) - D * ((x1 * y2 + y1 * x2) * (y1 * y2 - A * (x1 * x2))) * (x3 * y3)) / ((1 + D * (x1 * x2) * (y1 * y2)) * (1 - D * (x1 * x2) * (y1 * y2))) := by
    field_simp
    all_goals first | ring1 | (left; first | trivial | ring1)
  have hnumR : (y1 * ((y2 * y3 - A * (x2 * x3)) / (1 - D * (x2 * x3) * (y2 * y3))) - A * (x1 * ((x2 * y3 + y2 * x3) / (1 + D * (x2 * x3) * (y2 * y3))))) = (y1 * (y2 * y3 - A * (x2 * x3)) * (1 + D * (x2 * x3) * (y2 * y3)) - A * (x1 * (x2 * y3 + y2 * x3)) * (1 - D * (x2 * x3) * (y2 * y3))) / ((1 + D * (x2 * x3) * (y2 * y3)) * (1 - D * (x2 * x3) * (y2 * y3))) := by
    field_simp
    all_goals first | ring1 | (left; first | trivial | ring1)
  have hdenR : (1 - D * (x1 * ((x2 * y3 + y2 * x3) / (1 + D * (x2 * x3) * (y2 * y3)))) * (y1 * ((y2 * y3 - A * (x2 * x3)) / (1 - D * (x2 * x3) * (y2 * y3))))) = ((1 + D * (x2 * x3) * (y2 * y3)) * (1 - D * (x2 * x3) * (y2 * y3)) - D * (x1 * y1) * ((x2 * y3 + y2 * x3) * (y2 * y3 - A * (x2 * x3)))) / ((1 + D * (x2 * x3) * (y2 * y3)) * (1 - D * (x2 * x3) * (y2 * y3))) := by
    field_simp
    all_goals first | ring1 | (left; first | trivial | ring1)
  have hDL : ((1 + D * (x1 * x2) * (y1 * y2)) * (1 - D * (x1 * x2) * (y1 * y2)) - D * ((x1 * y2 + y1 * x2) * (y1 * y2 - A * (x1 * x2))) * (x3 * y3)) ≠ 0 := by
    intro h0
    apply hL
    rw [hdenL, h0, zero_div]
  have hDR : ((1 + D * (x2 * x3) * (y2 * y3)) * (1 - D * (x2 * x3) * (y2 * y3)) - D * (x1 * y1) * ((x2 * y3 + y2 * x3) * (y2 * y3 - A * (x2 * x3)))) ≠ 0 := by
    intro h0
    apply hR
    rw [hdenR, h0, zero_div]
  calc (((y1 * y2 - A * (x1 * x2)) / (1 - D * (x1 * x2) * (y1 * y2))) * y3 - A * (((x1 * y2 + y1 * x2) / (1 + D * (x1 * x2) * (y1 * y2))) * x3)) / (1 - D * (((x1 * y2 + y1 * x2) / (1 + D * (x1 * x2) * (y1 * y2))) * x3) * (((y1 * y2 - A * (x1 * x2)) / (1 - D * (x1 * x2) * (y1 * y2))) * y3))
      = (((y1 * y2 - A * (x1 * x2)) * y3 * (1 + D * (x1 * x2) * (y1 * y2)) - A * ((x1 * y2 + y1 * x2) * x3) * (1 - D * (x1 * x2) * (y1 * y2))) / ((1 + D * (x1 * x2) * (y1 * y2)) * (1 - D * (x1 * x2) * (y1 * y2)))) / (((1 + D * (x1 * x2) * (y1 * y2)) * (1 - D * (x1 * x2) * (y1 * y2)) - D * ((x1 * y2 + y1 * x2) * (y1 * y2 - A * (x1 * x2))) * (x3 * y3)) / ((1 + D * (x1 * x2) * (y1 * y2)) * (1 - D * (x1 * x2) * (y1 * y2)))) := by rw [hnumL, hdenL]
    _ = ((y1 * y2 - A * (x1 * x2)) * y3 * (1 + D * (x1 * x2) * (y1 * y2)) - A * ((x1 * y2 + y1 * x2) * x3) * (1 - D * (x1 * x2) * (y1 * y2))) / ((1 + D * (x1 * x2) * (y1 * y2)) * (1 - D * (x1 * x2) * (y1 * y2)) - D * ((x1 * y2 + y1 * x2) * (y1 * y2 - A * (x1 * x2))) * (x3 * y3)) := div_div_same _ _ _ hcc12
    _ = (y1 * (y2 * y3 - A * (x2 * x3)) * (1 + D * (x2 * x3) * (y2 * y3)) - A * (x1 * (x2 * y3 + y2 * x3)) * (1 - D * (x2 * x3) * (y2 * y3))) / ((1 + D * (x2 * x3) * (y2 * y3)) * (1 - D * (x2 * x3) * (y2 * y3)) - D * (x1 * y1) * ((x2 * y3 + y2 * x3) * (y2 * y3 - A * (x2 * x3)))) := frac_eq hDL hDR
        (edwards_assoc_y_core A D x1 y1 x2 y2 x3 y3 he1 he2 he3)
    _ = ((y1 * (y2 * y3 - A * (x2 * x3)) * (1 + D * (x2 * x3) * (y2 * y3)) - A * (x1 * (x2 * y3 + y2 * x3)) * (1 - D * (x2 * x3) * (y2 * y3))) / ((1 + D * (x2 * x3) * (y2 * y3)) * (1 - D * (x2 * x3) * (y2 * y3)))) / (((1 + D * (x2 * x3) * (y2 * y3)) * (1 - D * (x2 * x3) * (y2 * y3)) - D * (x1 * y1) * ((x2 * y3 + y2 * x3) * (y2 * y3 - A * (x2 * x3)))) / ((1 + D * (x2 * x3) * (y2 * y3)) * (1 - D * (x2 * x3) * (y2 * y3)))) := (div_div_same _ _ _ hcc23).symm
    _ = (y1 * ((y2 * y3 - A * (x2 * x3)) / (1 - D * (x2 * x3) * (y2 * y3))) - A * (x1 * ((x2 * y3 + y2 * x3) / (1 + D * (x2 * x3) * (y2 * y3))))) / (1 - D * (x1 * ((x2 * y3 + y2 * x3) / (1 + D * (x2 * x3) * (y2 * y3)))) * (y1 * ((y2 * y3 - A * (x2 * x3)) / (1 - D * (x2 * x3) * (y2 * y3))))) := by rw [← hnumR, ← hdenR]

theorem padd_assoc {P Q R : BjjPoint} (hP : OnCurve P) (hQ : OnCurve Q)
    (hR : OnCurve R) : (P.add Q).add R = P.add (Q.add R) := by
  have h12 := OnCurve.add hP hQ
  have h23 := OnCurve.add hQ hR
  obtain ⟨hc12p, hc12m⟩ := bjj_denominators hP hQ
  obtain ⟨hc23p, hc23m⟩ := bjj_denominators hQ hR
  obtain ⟨hLp, hLm⟩ := bjj_denominators h12 hR
  obtain ⟨hRp, hRm⟩ := bjj_denominators hP h23
  rw [padd_x P Q, padd_y P Q] at hLp hLm
  rw [padd_x Q R, padd_y Q R] at hRp hRm
  apply pt_eq
  · rw [padd_x (P.add Q) R, padd_x P (Q.add R), padd_x P Q, padd_y P Q,
      padd_x Q R, padd_y Q R]
    exact edwards_assoc_x aC dC P.x P.y Q.x Q.y R.x R.y hP hQ hR
      hc12p hc12m hc23p hc23m hLp hRp
  · rw [padd_y (P.add Q) R, padd_y P (Q.add R), padd_x P Q, padd_y P Q,
      padd_x Q R, padd_y Q R]
    exact edwards_assoc_y aC dC P.x P.y Q.x Q.y R.x R.y hP hQ hR
      hc12p hc12m hc23p hc23m hLm hRm

/-! ## The subgroup of curve points as an additive commutative group. -/

/-- The subtype of points satisfying the curve equation. -/
abbrev CPoint : Type := { P : BjjPoint // OnCurve P }

instance : Add CPoint :=
  ⟨fun P Q => ⟨P.1.add Q.1, OnCurve.add P.2 Q.2⟩⟩

instance : Zero CPoint :=
  ⟨⟨BjjPoint.identity, identity_on_curve⟩⟩

instance : Neg CPoint :=
  ⟨fun P => ⟨⟨-P.1.x, P.1.y⟩, OnCurve.neg P.2⟩⟩

instance : AddCommGroup CPoint where
  add := (· + ·)
  zero := 0
  neg := Neg.neg
  add_assoc P Q R := Subtype.ext (padd_assoc P.2 Q.2 R.2)
  zero_add P := Subtype.ext (padd_identity_left P.1)
  add_zero P := Subtype.ext (padd_identity_right P.1)
  neg_add_cancel P := Subtype.ext (padd_neg P.2)
  add_comm P Q := Subtype.ext (padd_comm P.1 Q.1)
  nsmul := nsmulRec
  zsmul := zsmulRec

theorem cadd_val (P Q : CPoint) : (P + Q).1 = P.1.add Q.1 := rfl

theorem czero_val : (0 : CPoint).1 = BjjPoint.identity := rfl


/-! ## Double-and-add agrees with the group's natural scalar action. -/

theorem mulLoop_eq : ∀ (bits : List Bool) (R0 T : CPoint),
    mulLoop bits R0.1 T.1 = ((bitsVal bits) • T + R0).1 := by
  intro bits
  induction bits with
  | nil =>
    intro R0 T
    simp [mulLoop, bitsVal, zero_nsmul, zero_add]
  | cons b bs ih =>
    intro R0 T
    have hstep : mulLoop (b :: bs) R0.1 T.1 =
        mulLoop bs (if b then R0 + T else R0 : CPoint).1 ((T + T : CPoint)).1 := by
      cases b <;> simp [mulLoop, cadd_val]
    rw [hstep, ih (if b then R0 + T else R0) (T + T)]
    have hv : bitsVal (b :: bs) = (if b then 1 else 0) + 2 * bitsVal bs := rfl
    have h2 : (2 * bitsVal bs) • T = bitsVal bs • (T + T) := by
      rw [mul_nsmul, two_nsmul]
    rw [hv, add_nsmul, h2]
    cases b <;> simp <;> abel_nf

theorem scalar_mul_eq (P : CPoint) (s : BjjScalar) :
    BjjPoint.scalar_mul P.1 s = ((s.val • P : CPoint)).1 := by
  have h := mulLoop_eq (BjjScalar.to_bits_le s) 0 P
  rw [czero_val] at h
  show mulLoop (BjjScalar.to_bits_le s) BjjPoint.identity P.1 = _
  rw [h, to_bits_le_val, add_zero]

theorem mul_by_bn254_eq (P : CPoint) (e : Fq) :
    BjjPoint.mul_by_bn254_scalar P.1 e = ((e.val • P : CPoint)).1 := by
  have h := mulLoop_eq (bn254_to_bits_le e) 0 P
  rw [czero_val] at h
  show mulLoop (bn254_to_bits_le e) BjjPoint.identity P.1 = _
  rw [h, bn254_to_bits_le_val, add_zero]

/-- The generator as a curve-subgroup element. -/
def Gc : CPoint := ⟨BjjPoint.generator, generator_on_curve⟩

set_option maxHeartbeats 40000000 in
theorem nG_loop : mulLoop (natBitsLE 253 nBJJ) BjjPoint.identity
    BjjPoint.generator = BjjPoint.identity := by decide

theorem nG_zero : nBJJ • Gc = 0 := by
  have h := mulLoop_eq (natBitsLE 253 nBJJ) 0 Gc
  rw [czero_val, bitsVal_natBitsLE 253 nBJJ nBJJ_lt_2_253, add_zero] at h
  apply Subtype.ext
  rw [← h]
  exact nG_loop

theorem nsmul_mod (P : CPoint) (hord : nBJJ • P = 0) (m : ℕ) :
    (m % nBJJ) • P = m • P := by
  conv_rhs => rw [← Nat.div_add_mod m nBJJ]
  rw [add_nsmul, mul_nsmul, hord, smul_zero, zero_add]


/-! ## The checked (abort-explicit) operations never abort on curve
points, and agree with the total forms. -/

theorem addChecked_eq {P Q : BjjPoint} (hP : OnCurve P) (hQ : OnCurve Q) :
    P.addChecked Q = some (P.add Q) := by
  obtain ⟨hp, hm⟩ := bjj_denominators hP hQ
  simp only [BjjPoint.addChecked, BjjPoint.add]
  rw [if_neg hp, if_neg hm]

theorem mulLoop_on_curve : ∀ (bits : List Bool) {R T : BjjPoint},
    OnCurve R → OnCurve T → OnCurve (mulLoop bits R T) := by
  intro bits
  induction bits with
  | nil => intro R T hR _; exact hR
  | cons b bs ih =>
    intro R T hR hT
    cases b
    · exact ih hR (OnCurve.add hT hT)
    · exact ih (OnCurve.add hR hT) (OnCurve.add hT hT)

theorem mulLoopChecked_eq : ∀ (bits : List Bool) {R T : BjjPoint},
    OnCurve R → OnCurve T →
    mulLoopChecked bits R T = some (mulLoop bits R T) := by
  intro bits
  induction bits with
  | nil => intro R T _ _; rfl
  | cons b bs ih =>
    intro R T hR hT
    have hTT : T.addChecked T = some (T.add T) := addChecked_eq hT hT
    cases b
    · simp only [mulLoopChecked, mulLoop, hTT]
      exact ih hR (OnCurve.add hT hT)
    · have hRT : R.addChecked T = some (R.add T) := addChecked_eq hR hT
      simp only [mulLoopChecked, mulLoop, hTT, hRT]
      exact ih (OnCurve.add hR hT) (OnCurve.add hT hT)

theorem scalar_mulChecked_eq {P : BjjPoint} (hP : OnCurve P) (s : BjjScalar) :
    P.scalar_mulChecked s = some (P.scalar_mul s) :=
  mulLoopChecked_eq (BjjScalar.to_bits_le s) identity_on_curve hP

theorem mul_by_bn254_scalarChecked_eq {P : BjjPoint} (hP : OnCurve P) (e : Fq) :
    P.mul_by_bn254_scalarChecked e = some (P.mul_by_bn254_scalar e) :=
  mulLoopChecked_eq (bn254_to_bits_le e) identity_on_curve hP

theorem scalar_mul_on_curve {P : BjjPoint} (hP : OnCurve P) (s : BjjScalar) :
    OnCurve (P.scalar_mul s) :=
  mulLoop_on_curve (BjjScalar.to_bits_le s) identity_on_curve hP

theorem mul_by_bn254_on_curve {P : BjjPoint} (hP : OnCurve P) (e : Fq) :
    OnCurve (P.mul_by_bn254_scalar e) :=
  mulLoop_on_curve (bn254_to_bits_le e) identity_on_curve hP

theorem verifyChecked_eq (H : HashModel) (sig : Signature) (message : List ℕ)
    (pk : PublicKey) (hpk : OnCurve pk.point) :
    verifyChecked H sig message pk = some (verify H sig message pk) := by
  have hsg := scalar_mulChecked_eq generator_on_curve sig.s
  have hepk := mul_by_bn254_scalarChecked_eq hpk sig.e
  have hadd := addChecked_eq (scalar_mul_on_curve generator_on_curve sig.s)
    (mul_by_bn254_on_curve hpk sig.e)
  simp only [verifyChecked, verify, hsg, hepk, hadd]

/-! ## Scalars mod n act on the subgroup through their natural value. -/

theorem nsmul_order {P : CPoint} (hord : nBJJ • P = 0) (m : ℕ) :
    nBJJ • (m • P) = 0 := by
  rw [smul_comm, hord, smul_zero]

theorem val_add_smul (P : CPoint) (hord : nBJJ • P = 0) (a b : BjjScalar) :
    (a + b).val • P = a.val • P + b.val • P := by
  rw [ZMod.val_add, nsmul_mod P hord, add_nsmul]

theorem val_mul_smul (P : CPoint) (hord : nBJJ • P = 0) (a b : BjjScalar) :
    (a * b).val • P = b.val • (a.val • P) := by
  rw [ZMod.val_mul, nsmul_mod P hord, mul_nsmul]

theorem natCast_val_smul (P : CPoint) (hord : nBJJ • P = 0) (m : ℕ) :
    ((m : BjjScalar)).val • P = m • P := by
  rw [ZMod.val_natCast, nsmul_mod P hord]


/-! ## The Schnorr verification equation. -/

theorem verify_of_rprime (H : HashModel) (sig : Signature) (msg : List ℕ)
    (pk : PublicKey)
    (h : (BjjPoint.generator.scalar_mul sig.s).add
        (pk.point.mul_by_bn254_scalar sig.e) = sig.r)
    (he : sig.e = schnorr_challenge H sig.r.x pk.point.x pk.point.y
        (hash_message_to_field H msg)) :
    verify H sig msg pk = VerifyResult.Valid := by
  simp only [verify, h, ← he]
  simp

theorem g_scalar_mul_eq (s : BjjScalar) :
    BjjPoint.generator.scalar_mul s = ((s.val • Gc)).1 :=
  scalar_mul_eq Gc s

theorem sign_verify_core (H : HashModel) (sk : BjjScalar) (msg : List ℕ) :
    verify H (Signature.sign H (KeyPair.from_private_key sk) msg) msg
      (KeyPair.from_private_key sk).pk = VerifyResult.Valid := by
  have hordPk : nBJJ • (sk.val • Gc) = 0 := nsmul_order nG_zero sk.val
  have hs : (Signature.sign H (KeyPair.from_private_key sk) msg).s =
      deterministic_nonce H sk msg -
        bn254_to_bjj_scalar (Signature.sign H (KeyPair.from_private_key sk) msg).e * sk :=
    rfl
  have hgrp : (Signature.sign H (KeyPair.from_private_key sk) msg).s.val • Gc +
      (Signature.sign H (KeyPair.from_private_key sk) msg).e.val • (sk.val • Gc) =
      (deterministic_nonce H sk msg).val • Gc := by
    calc (Signature.sign H (KeyPair.from_private_key sk) msg).s.val • Gc +
        (Signature.sign H (KeyPair.from_private_key sk) msg).e.val • (sk.val • Gc)
        = (Signature.sign H (KeyPair.from_private_key sk) msg).s.val • Gc +
          ((bn254_to_bjj_scalar
            (Signature.sign H (KeyPair.from_private_key sk) msg).e)).val •
            (sk.val • Gc) := by
          rw [bn254_to_bjj_scalar_eq]
          exact congrArg (_ + ·)
            (natCast_val_smul (sk.val • Gc) hordPk _).symm
      _ = (Signature.sign H (KeyPair.from_private_key sk) msg).s.val • Gc +
          ((sk * bn254_to_bjj_scalar
            (Signature.sign H (KeyPair.from_private_key sk) msg).e)).val • Gc := by
          rw [val_mul_smul Gc nG_zero]
      _ = ((Signature.sign H (KeyPair.from_private_key sk) msg).s +
          sk * bn254_to_bjj_scalar
            (Signature.sign H (KeyPair.from_private_key sk) msg).e).val • Gc :=
          (val_add_smul Gc nG_zero _ _).symm
      _ = (deterministic_nonce H sk msg).val • Gc := by
          rw [show (Signature.sign H (KeyPair.from_private_key sk) msg).s +
              sk * bn254_to_bjj_scalar
                (Signature.sign H (KeyPair.from_private_key sk) msg).e =
              deterministic_nonce H sk msg from by rw [hs]; ring]
  apply verify_of_rprime
  · have hpk : (KeyPair.from_private_key sk).pk.point =
        BjjPoint.generator.scalar_mul sk := rfl
    have hr : (Signature.sign H (KeyPair.from_private_key sk) msg).r =
        BjjPoint.generator.scalar_mul (deterministic_nonce H sk msg) := rfl
    rw [hpk, hr, g_scalar_mul_eq, g_scalar_mul_eq, g_scalar_mul_eq,
      mul_by_bn254_eq (sk.val • Gc), ← cadd_val, hgrp]
  · rfl


/-! ## Scalar-multiplication homomorphism and order-divides-n machinery. -/

theorem scalar_hom (a b : BjjScalar) :
    (BjjPoint.generator.scalar_mul a).add (BjjPoint.generator.scalar_mul b) =
      BjjPoint.generator.scalar_mul (a + b) := by
  rw [g_scalar_mul_eq a, g_scalar_mul_eq b, g_scalar_mul_eq (a + b), ← cadd_val,
    val_add_smul Gc nG_zero a b]

/-- Mathematical m-fold sum of a point (repeated addition). -/
def nsmulPt : ℕ → BjjPoint → BjjPoint
  | 0, _ => BjjPoint.identity
  | m+1, P => (nsmulPt m P).add P

theorem nsmulPt_eq : ∀ (m : ℕ) (P : CPoint), nsmulPt m P.1 = ((m • P)).1 := by
  intro m
  induction m with
  | zero =>
    intro P
    show BjjPoint.identity = ((0 • P)).1
    rw [zero_nsmul, czero_val]
  | succ m ih =>
    intro P
    show (nsmulPt m P.1).add P.1 = (((m + 1) • P)).1
    rw [ih P, ← cadd_val, succ_nsmul]

theorem nsmulPt_identity : ∀ (m : ℕ), nsmulPt m BjjPoint.identity = BjjPoint.identity := by
  intro m
  induction m with
  | zero => rfl
  | succ m ih =>
    show (nsmulPt m BjjPoint.identity).add BjjPoint.identity = BjjPoint.identity
    rw [ih, padd_identity_right]

theorem unreduced_mul_core {P : BjjPoint} (e : Fq) (hP : OnCurve P)
    (hord : nsmulPt nBJJ P = BjjPoint.identity) :
    P.mul_by_bn254_scalar e = P.scalar_mul (bn254_to_bjj_scalar e) := by
  have hordC : nBJJ • (⟨P, hP⟩ : CPoint) = 0 := by
    apply Subtype.ext
    have h := nsmulPt_eq nBJJ ⟨P, hP⟩
    rw [← h]
    exact hord
  have h1 : P.mul_by_bn254_scalar e = ((e.val • (⟨P, hP⟩ : CPoint))).1 :=
    mul_by_bn254_eq ⟨P, hP⟩ e
  have h2 : P.scalar_mul (bn254_to_bjj_scalar e) =
      (((bn254_to_bjj_scalar e).val • (⟨P, hP⟩ : CPoint))).1 :=
    scalar_mul_eq ⟨P, hP⟩ (bn254_to_bjj_scalar e)
  rw [h1, h2, bn254_to_bjj_scalar_eq, natCast_val_smul _ hordC]


theorem nG_nsmulPt : nsmulPt nBJJ BjjPoint.generator = BjjPoint.identity := by
  have h : nsmulPt nBJJ Gc.1 = ((nBJJ • Gc)).1 := nsmulPt_eq nBJJ Gc
  rw [nG_zero, czero_val] at h
  exact h

/-! ## Concrete inputs used by witnesses. -/

def hashModel0 : HashModel :=
  ⟨fun _ _ _ _ => 0, fun _ => [], fun _ => List.replicate 64 0⟩

def kp0 : KeyPair := ⟨0, ⟨BjjPoint.identity⟩⟩

def sig0 : Signature := ⟨0, 0, BjjPoint.identity⟩

/-! ## The claims. -/

/-- C1: Round trip: for every keypair derived from a secret scalar and every
message byte string (empty and multi-kilobyte messages included, since the
message is universally quantified), verifying a signature produced by sign
with the matching public key returns Valid; the abort-explicit verifier
returns some Valid, so no abort occurs either. -/
theorem C1_sign_verify_roundtrip (H : HashModel) (sk : BjjScalar)
    (msg : List ℕ) :
    verify H (Signature.sign H (KeyPair.from_private_key sk) msg) msg
      (KeyPair.from_private_key sk).pk = VerifyResult.Valid ∧
    verifyChecked H (Signature.sign H (KeyPair.from_private_key sk) msg) msg
      (KeyPair.from_private_key sk).pk = some VerifyResult.Valid := by
  have hpk : OnCurve (KeyPair.from_private_key sk).pk.point :=
    scalar_mul_on_curve generator_on_curve sk
  refine ⟨sign_verify_core H sk msg, ?_⟩
  rw [verifyChecked_eq _ _ _ _ hpk, sign_verify_core H sk msg]

/-- C2: verify returns Valid iff the recomputed challenge
Poseidon((s·G + e·pk).x, pk.x, pk.y, H(m)) equals sig.e as an unreduced
field element mod p; otherwise it returns the explicit value Invalid, and
(for a public key satisfying the curve invariant of the data model) the
abort-explicit verifier never aborts, so no raised failure and no partial
result exist. -/
theorem C2_verify_iff_challenge (H : HashModel) (sig : Signature)
    (msg : List ℕ) (pk : PublicKey) (hpk : pk.point.is_on_curve = true) :
    verifyChecked H sig msg pk = some (verify H sig msg pk) ∧
    (verify H sig msg pk = VerifyResult.Valid ↔
      schnorr_challenge H
        ((BjjPoint.generator.scalar_mul sig.s).add
          (pk.point.mul_by_bn254_scalar sig.e)).x
        pk.point.x pk.point.y (hash_message_to_field H msg) = sig.e) ∧
    (schnorr_challenge H
        ((BjjPoint.generator.scalar_mul sig.s).add
          (pk.point.mul_by_bn254_scalar sig.e)).x
        pk.point.x pk.point.y (hash_message_to_field H msg) ≠ sig.e →
      verify H sig msg pk = VerifyResult.Invalid) := by
  have hv : verify H sig msg pk =
      if schnorr_challenge H
          ((BjjPoint.generator.scalar_mul sig.s).add
            (pk.point.mul_by_bn254_scalar sig.e)).x
          pk.point.x pk.point.y (hash_message_to_field H msg) = sig.e
      then VerifyResult.Valid else VerifyResult.Invalid := rfl
  refine ⟨verifyChecked_eq H sig msg pk ((is_on_curve_iff _).mp hpk), ?_, ?_⟩
  · by_cases h : schnorr_challenge H
        ((BjjPoint.generator.scalar_mul sig.s).add
          (pk.point.mul_by_bn254_scalar sig.e)).x
        pk.point.x pk.point.y (hash_message_to_field H msg) = sig.e
    · rw [hv, if_pos h]
      exact ⟨fun _ => h, fun _ => rfl⟩
    · rw [hv, if_neg h]
      exact ⟨fun habs => absurd habs (by decide), fun hc => absurd hc h⟩
  · intro h
    rw [hv, if_neg h]

/-- C2 witness: a concrete on-curve public key (the generator) discharging
the hypothesis; the conclusion is the theorem instantiated there. -/
theorem C2_verify_iff_challenge_witness :
    (PublicKey.mk BjjPoint.generator).point.is_on_curve = true ∧
    (verifyChecked hashModel0 sig0 [] ⟨BjjPoint.generator⟩ =
      some (verify hashModel0 sig0 [] ⟨BjjPoint.generator⟩) ∧
    (verify hashModel0 sig0 [] ⟨BjjPoint.generator⟩ = VerifyResult.Valid ↔
      schnorr_challenge hashModel0
        ((BjjPoint.generator.scalar_mul sig0.s).add
          ((PublicKey.mk BjjPoint.generator).point.mul_by_bn254_scalar sig0.e)).x
        (PublicKey.mk BjjPoint.generator).point.x
        (PublicKey.mk BjjPoint.generator).point.y
        (hash_message_to_field hashModel0 []) = sig0.e) ∧
    (schnorr_challenge hashModel0
        ((BjjPoint.generator.scalar_mul sig0.s).add
          ((PublicKey.mk BjjPoint.generator).point.mul_by_bn254_scalar sig0.e)).x
        (PublicKey.mk BjjPoint.generator).point.x
        (PublicKey.mk BjjPoint.generator).point.y
        (hash_message_to_field hashModel0 []) ≠ sig0.e →
      verify hashModel0 sig0 [] ⟨BjjPoint.generator⟩ = VerifyResult.Invalid)) :=
  ⟨by decide,
   C2_verify_iff_challenge hashModel0 sig0 [] ⟨BjjPoint.generator⟩ (by decide)⟩


/-- C3: sign computes the deterministic nonce k from (sk, m), the
commitment r = k·G, the challenge e = Poseidon(r.x, pk.x, pk.y, H(m))
stored unreduced as the raw mod-p hash output, and the response
s = k − e_n·sk in Z_n, where e_n is e reduced mod n through the
little-endian value of e. -/
theorem C3_sign_computation (H : HashModel) (kp : KeyPair) (msg : List ℕ) :
    (Signature.sign H kp msg).r =
      BjjPoint.generator.scalar_mul (deterministic_nonce H kp.sk msg) ∧
    (Signature.sign H kp msg).e =
      schnorr_challenge H
        (BjjPoint.generator.scalar_mul (deterministic_nonce H kp.sk msg)).x
        kp.pk.point.x kp.pk.point.y (hash_message_to_field H msg) ∧
    (Signature.sign H kp msg).s =
      deterministic_nonce H kp.sk msg -
        bn254_to_bjj_scalar (Signature.sign H kp msg).e * kp.sk ∧
    bn254_to_bjj_scalar (Signature.sign H kp msg).e =
      (((Signature.sign H kp msg).e.val : ℕ) : BjjScalar) :=
  ⟨rfl, rfl, rfl, bn254_to_bjj_scalar_eq _⟩

/-- C4: point addition of a·G and b·G equals ((a+b) mod n)·G — addition in
Z_n is exactly mod-n addition of representatives. -/
theorem C4_scalar_mul_additive (a b : BjjScalar) :
    (BjjPoint.generator.scalar_mul a).add (BjjPoint.generator.scalar_mul b) =
      BjjPoint.generator.scalar_mul (a + b) ∧
    (a + b).val = (a.val + b.val) % nBJJ :=
  ⟨scalar_hom a b, ZMod.val_add a b⟩

/-- C5: for every on-curve point of order dividing n, double-and-add over
the 254 unreduced little-endian bits of a field element e equals
scalar multiplication by e reduced mod n. -/
theorem C5_unreduced_scalar_mul (P : BjjPoint) (e : Fq)
    (hP : P.is_on_curve = true)
    (hord : nsmulPt nBJJ P = BjjPoint.identity) :
    P.mul_by_bn254_scalar e = P.scalar_mul (bn254_to_bjj_scalar e) :=
  unreduced_mul_core e ((is_on_curve_iff P).mp hP) hord

/-- C5 witness: the generator itself has order dividing n. -/
theorem C5_unreduced_scalar_mul_witness :
    BjjPoint.generator.is_on_curve = true ∧
    nsmulPt nBJJ BjjPoint.generator = BjjPoint.identity ∧
    BjjPoint.generator.mul_by_bn254_scalar 1 =
      BjjPoint.generator.scalar_mul (bn254_to_bjj_scalar 1) :=
  ⟨by decide, nG_nsmulPt,
   C5_unreduced_scalar_mul BjjPoint.generator 1 (by decide) nG_nsmulPt⟩

/-- C6: signing is deterministic: equal keypairs and equal messages give
identical s, e and commitment r (signing is a pure function of its
arguments; no randomness enters). -/
theorem C6_sign_deterministic (H : HashModel) (kp kp' : KeyPair)
    (m m' : List ℕ) (hkp : kp = kp') (hm : m = m') :
    (Signature.sign H kp m).s = (Signature.sign H kp' m').s ∧
    (Signature.sign H kp m).e = (Signature.sign H kp' m').e ∧
    (Signature.sign H kp m).r = (Signature.sign H kp' m').r := by
  subst hkp
  subst hm
  exact ⟨rfl, rfl, rfl⟩

/-- C6 witness: two calls on a concrete keypair and message. -/
theorem C6_sign_deterministic_witness :
    kp0 = kp0 ∧ ([] : List ℕ) = [] ∧
    ((Signature.sign hashModel0 kp0 []).s = (Signature.sign hashModel0 kp0 []).s ∧
     (Signature.sign hashModel0 kp0 []).e = (Signature.sign hashModel0 kp0 []).e ∧
     (Signature.sign hashModel0 kp0 []).r = (Signature.sign hashModel0 kp0 []).r) :=
  ⟨rfl, rfl, C6_sign_deterministic hashModel0 kp0 kp0 [] [] rfl rfl⟩


/-- C7: point addition aborts (returns none) whenever a denominator
1 ± d·x1·x2·y1·y2 vanishes, rather than producing a wrong point; and on
inputs satisfying the curve equation with a = 168700, d = 168696 the
zero-denominator branches are unreachable, so addition is total there. -/
theorem C7_zero_denominator_abort (P Q : BjjPoint)
    (hP : P.is_on_curve = true) (hQ : Q.is_on_curve = true) :
    P.addChecked Q = some (P.add Q) ∧
    1 + dC * (P.x * Q.x) * (P.y * Q.y) ≠ 0 ∧
    1 - dC * (P.x * Q.x) * (P.y * Q.y) ≠ 0 ∧
    (∀ P' Q' : BjjPoint, 1 + dC * (P'.x * Q'.x) * (P'.y * Q'.y) = 0 →
      BjjPoint.addChecked P' Q' = none) ∧
    (∀ P' Q' : BjjPoint, 1 - dC * (P'.x * Q'.x) * (P'.y * Q'.y) = 0 →
      BjjPoint.addChecked P' Q' = none) := by
  have hP' := (is_on_curve_iff P).mp hP
  have hQ' := (is_on_curve_iff Q).mp hQ
  obtain ⟨hp, hm⟩ := bjj_denominators hP' hQ'
  refine ⟨addChecked_eq hP' hQ', hp, hm, ?_, ?_⟩
  · intro P' Q' h0
    simp only [BjjPoint.addChecked]
    rw [if_pos h0]
  · intro P' Q' h0
    by_cases h1 : 1 + dC * (P'.x * Q'.x) * (P'.y * Q'.y) = 0
    · simp only [BjjPoint.addChecked]
      rw [if_pos h1]
    · simp only [BjjPoint.addChecked]
      rw [if_neg h1, if_pos h0]

/-- C7 witness: two concrete on-curve points (the generator twice). -/
theorem C7_zero_denominator_abort_witness :
    BjjPoint.generator.is_on_curve = true ∧
    (BjjPoint.generator.addChecked BjjPoint.generator =
      some (BjjPoint.generator.add BjjPoint.generator) ∧
    1 + dC * (BjjPoint.generator.x * BjjPoint.generator.x) *
      (BjjPoint.generator.y * BjjPoint.generator.y) ≠ 0 ∧
    1 - dC * (BjjPoint.generator.x * BjjPoint.generator.x) *
      (BjjPoint.generator.y * BjjPoint.generator.y) ≠ 0 ∧
    (∀ P' Q' : BjjPoint, 1 + dC * (P'.x * Q'.x) * (P'.y * Q'.y) = 0 →
      BjjPoint.addChecked P' Q' = none) ∧
    (∀ P' Q' : BjjPoint, 1 - dC * (P'.x * Q'.x) * (P'.y * Q'.y) = 0 →
      BjjPoint.addChecked P' Q' = none)) :=
  ⟨by decide,
   C7_zero_denominator_abort BjjPoint.generator BjjPoint.generator
     (by decide) (by decide)⟩

/-- C8: the deterministic nonce is the little-endian value of
SHA-512(sk_bytes || message) reduced mod n, where sk_bytes is the canonical
32-byte little-endian encoding of the secret scalar; the 512-bit output
width is at least twice the 251-bit length of n. -/
theorem C8_nonce_structure (H : HashModel) (sk : BjjScalar) (msg : List ℕ)
    (hlen : (H.sha512 (BjjScalar.to_bytes_le sk ++ msg)).length = 64) :
    (deterministic_nonce H sk msg).val =
      fromLeBytesNat (H.sha512 (BjjScalar.to_bytes_le sk ++ msg)) % nBJJ ∧
    8 * (H.sha512 (BjjScalar.to_bytes_le sk ++ msg)).length = 512 ∧
    2 ^ 250 ≤ nBJJ ∧ nBJJ < 2 ^ 251 ∧ 2 * 251 ≤ 512 ∧
    BjjScalar.to_bytes_le sk = toBytesLE 32 sk.val := by
  refine ⟨?_, by rw [hlen], nBJJ_bits.1, nBJJ_bits.2, by norm_num, rfl⟩
  show ((fromLeBytesNat (H.sha512 (BjjScalar.to_bytes_le sk ++ msg)) : ℕ) :
    Fr).val = _
  exact ZMod.val_natCast _

/-- C8 witness: a model whose SHA-512 returns 64 bytes. -/
theorem C8_nonce_structure_witness :
    (hashModel0.sha512 (BjjScalar.to_bytes_le 0 ++ [])).length = 64 ∧
    ((deterministic_nonce hashModel0 0 []).val =
      fromLeBytesNat (hashModel0.sha512 (BjjScalar.to_bytes_le 0 ++ [])) % nBJJ ∧
    8 * (hashModel0.sha512 (BjjScalar.to_bytes_le 0 ++ [])).length = 512 ∧
    2 ^ 250 ≤ nBJJ ∧ nBJJ < 2 ^ 251 ∧ 2 * 251 ≤ 512 ∧
    BjjScalar.to_bytes_le 0 = toBytesLE 32 (0 : BjjScalar).val) :=
  ⟨by simp [hashModel0],
   C8_nonce_structure hashModel0 0 [] (by simp [hashModel0])⟩

/-- C9: scalar multiplication consumes exactly the first 253 little-endian
bits of a mod-n scalar's byte encoding and exactly the first 254 bits of a
mod-p element, and both truncations are lossless: the truncated bit lists
still denote the full integer values. -/
theorem C9_bit_lengths (s : BjjScalar) (f : Fq) :
    (BjjScalar.to_bits_le s).length = 253 ∧
    bitsVal (BjjScalar.to_bits_le s) = s.val ∧
    (bn254_to_bits_le f).length = 254 ∧
    bitsVal (bn254_to_bits_le f) = f.val := by
  refine ⟨?_, to_bits_le_val s, ?_, bn254_to_bits_le_val f⟩
  · rw [to_bits_le_eq]
    exact natBitsLE_length 253 s.val
  · rw [bn254_to_bits_le_eq]
    exact natBitsLE_length 254 f.val

/-- C10: curve membership is preserved by point addition and by scalar
multiplication, and the identity (0, 1) lies on the curve. -/
theorem C10_on_curve_invariant (P Q : BjjPoint) (s : BjjScalar)
    (hP : P.is_on_curve = true) (hQ : Q.is_on_curve = true) :
    (P.add Q).is_on_curve = true ∧
    (P.scalar_mul s).is_on_curve = true ∧
    BjjPoint.identity.is_on_curve = true := by
  have hP' := (is_on_curve_iff P).mp hP
  have hQ' := (is_on_curve_iff Q).mp hQ
  exact ⟨(is_on_curve_iff _).mpr (OnCurve.add hP' hQ'),
         (is_on_curve_iff _).mpr (scalar_mul_on_curve hP' s),
         (is_on_curve_iff _).mpr identity_on_curve⟩

/-- C10 witness: the generator twice and the zero scalar. -/
theorem C10_on_curve_invariant_witness :
    BjjPoint.generator.is_on_curve = true ∧
    ((BjjPoint.generator.add BjjPoint.generator).is_on_curve = true ∧
     (BjjPoint.generator.scalar_mul 0).is_on_curve = true ∧
     BjjPoint.identity.is_on_curve = true) :=
  ⟨by decide,
   C10_on_curve_invariant BjjPoint.generator BjjPoint.generator 0
     (by decide) (by decide)⟩

